import Mathlib

/-!
Verification of the quiz-generation backend (`backend/main.py`) of the
AI-Wiki-Quiz-Generator repository.

The Python endpoint `POST /quiz` is shallowly embedded as a pure Lean
function.  Python dictionaries produced by `json.loads` are modelled by the
inductive type `JVal`; Python's dynamic operations (`len`, `in`, subscript,
`dict.get`, iteration, truthiness) are modelled by total Lean functions
returning `Except Unit _`, where `Except.error ()` stands for a raised
Python exception (`TypeError` / `KeyError` / `AttributeError` / `IndexError`
are not distinguished: the code under verification never inspects the
exception type).  `random.shuffle` is modelled by an oracle parameter
`shuf : List JVal → List JVal`; its contract (it permutes the list) becomes
a `List.Perm` hypothesis in theorems.  JSON numeric literals are modelled as
integers (the quiz schema never uses fractional numbers); this is the only
place where the embedding restricts `json.loads`.
-/

/-- Python / JSON value as produced by `json.loads`: `null`, booleans,
(integer) numbers, strings, lists and (insertion-ordered, unique-key)
dictionaries. -/
inductive JVal where
  | jnull
  | jbool (b : Bool)
  | jnum (n : Int)
  | jstr (s : String)
  | jarr (l : List JVal)
  | jobj (l : List (String × JVal))

/-- Fuel-bounded structural equality, modelling Python `==` on values coming
out of `json.loads` (dict comparison is key-set based, order-insensitive).
The fuel bounds the nesting depth; 1000 is far beyond any value the code
can meet. -/
def pyEqF : Nat → JVal → JVal → Bool
  | 0, _, _ => false
  | f+1, a, b =>
    match a, b with
    | .jnull, .jnull => true
    | .jbool x, .jbool y => x == y
    | .jnum x, .jnum y => x == y
    | .jstr x, .jstr y => x == y
    | .jarr x, .jarr y => x.length == y.length && (x.zip y).all (fun p => pyEqF f p.1 p.2)
    | .jobj x, .jobj y => x.length == y.length &&
        x.all (fun kv => match y.find? (fun kv2 => kv2.1 == kv.1) with
                         | some kv2 => pyEqF f kv.2 kv2.2
                         | none => false)
    | _, _ => false

/-- Python `==` between two decoded JSON values. -/
def pyEq (a b : JVal) : Bool := pyEqF 1000 a b

/-- Python truthiness (`bool(v)`) of a decoded JSON value. -/
def JVal.truthy : JVal → Bool
  | .jnull => false
  | .jbool b => b
  | .jnum n => n != 0
  | .jstr s => !s.data.isEmpty
  | .jarr l => !l.isEmpty
  | .jobj l => !l.isEmpty

/-- Association-list lookup for the model of a Python dict. -/
def jlookup (l : List (String × JVal)) (k : String) : Option JVal :=
  match l with
  | [] => none
  | (k', v) :: t => if k' == k then some v else jlookup t k

/-- Key update in the association-list model of a dict: replaces the value
in place when the key exists (keeping its position), appends otherwise. -/
def pySetList : List (String × JVal) → String → JVal → List (String × JVal)
  | [], k, v => [(k, v)]
  | (k', v') :: t, k, v =>
      if k' == k then (k', v) :: t else (k', v') :: pySetList t k v

/-- Python dict assignment `d[k] = v`.  On a non-dict value the call sites
in the embedded code are unreachable, so the value is returned unchanged. -/
def pySet (j : JVal) (k : String) (v : JVal) : JVal :=
  match j with
  | .jobj l => .jobj (pySetList l k v)
  | _ => j

/-- Key removal in the association-list model of a dict. -/
def pyPopList : List (String × JVal) → String → List (String × JVal)
  | [], _ => []
  | (k', v') :: t, k => if k' == k then t else (k', v') :: pyPopList t k

/-- Python `d.pop(k, None)`: removes the key when present. -/
def pyPop (j : JVal) (k : String) : JVal :=
  match j with
  | .jobj l => .jobj (pyPopList l k)
  | _ => j

/-- `pat` appears as a prefix of `s` (character lists). -/
def startsW : List Char → List Char → Bool
  | [], _ => true
  | _ :: _, [] => false
  | p :: ps, c :: cs => p == c && startsW ps cs

/-- `pat` appears as a contiguous substring of `s` (Python `pat in s` for
strings). -/
def hasSub (pat : List Char) : List Char → Bool
  | [] => startsW pat []
  | c :: cs => startsW pat (c :: cs) || hasSub pat cs

/-- Python `len(v)`; raises (`Except.error`) on values without a length. -/
def pyLen : JVal → Except Unit Nat
  | .jstr s => .ok s.data.length
  | .jarr l => .ok l.length
  | .jobj l => .ok l.length
  | _ => .error ()

/-- Python `key in v` for a string `key`: dict key membership, list element
membership (via `==`), substring test on strings; raises on other values. -/
def pyContains (key : String) : JVal → Except Unit Bool
  | .jobj l => .ok (l.any (fun kv => kv.1 == key))
  | .jarr l => .ok (l.any (fun v => pyEq v (.jstr key)))
  | .jstr s => .ok (hasSub key.data s.data)
  | _ => .error ()

/-- Python subscript `v[key]` with a string key: only dicts succeed. -/
def pyGetStr (j : JVal) (k : String) : Except Unit JVal :=
  match j with
  | .jobj l => match jlookup l k with
               | some v => .ok v
               | none => .error ()
  | _ => .error ()

/-- Python subscript `v[i]` with a non-negative integer index. -/
def pyIdx (j : JVal) (i : Nat) : Except Unit JVal :=
  match j with
  | .jarr l => match l.get? i with
               | some v => .ok v
               | none => .error ()
  | .jstr s => match s.data.get? i with
               | some c => .ok (.jstr (String.mk [c]))
               | none => .error ()
  | _ => .error ()

/-- Python `d.get(k, default)`: raises (`AttributeError`) unless `d` is a
dict. -/
def pyDictGet (j : JVal) (k : String) (dflt : JVal) : Except Unit JVal :=
  match j with
  | .jobj l => match jlookup l k with
               | some v => .ok v
               | none => .ok dflt
  | _ => .error ()

/-- Python iteration `for x in v`: lists yield elements, strings yield
1-character strings, dicts yield their keys; other values raise. -/
def pyIter : JVal → Except Unit (List JVal)
  | .jarr l => .ok l
  | .jstr s => .ok (s.data.map (fun c => JVal.jstr (String.mk [c])))
  | .jobj l => .ok (l.map (fun kv => JVal.jstr kv.1))
  | _ => .error ()

/-! ### Character-level utilities (Python string methods and the two
`re.sub` calls of `backend/main.py` lines 211-214). -/

/-- Python `str.strip()` whitespace (ASCII part: space, tab, newline,
carriage return, vertical tab, form feed); also the character class of the
regex `\s` used by the fence-stripping substitutions. -/
def isPySpace (c : Char) : Bool :=
  c == ' ' || c == '\t' || c == '\n' || c == '\r' ||
  c == Char.ofNat 11 || c == Char.ofNat 12

/-- Python `str.strip()` on a character list. -/
def pyStrip (s : List Char) : List Char :=
  ((s.dropWhile isPySpace).reverse.dropWhile isPySpace).reverse

/-- Python `str.split('.')`: cut at every `'.'`, keeping empty segments. -/
def splitDot : List Char → List (List Char)
  | [] => [[]]
  | c :: cs =>
    match splitDot cs with
    | [] => [[c]]
    | r :: rs => if c == '.' then [] :: r :: rs else (c :: r) :: rs

/-- The backtick character (code 96). -/
def btk : Char := Char.ofNat 96

/-- Drop a leading whitespace run, also reporting whether the last dropped
character was a newline (`nl` is the value reported when nothing more is
dropped). -/
def dropWsNl : List Char → Bool → (List Char × Bool)
  | [], nl => ([], nl)
  | c :: cs, nl =>
      if isPySpace c then dropWsNl cs (c == '\n') else (c :: cs, nl)

/-- One scanning pass of `re.sub(r'^```(?:json)?\s*', '', text,
flags=re.MULTILINE)`: at every line start (`atLS`), an occurrence of three
backticks, an optional `json`, and the following whitespace run is deleted;
matching continues right after the deleted span, whose position is a line
start exactly when the last deleted character was a newline.  `fuel` is an
upper bound on the number of steps (the input length suffices). -/
def stripOpensF : Nat → Bool → List Char → List Char
  | 0, _, s => s
  | _+1, _, [] => []
  | f+1, atLS, c :: cs =>
      if atLS && startsW [btk, btk, btk] (c :: cs) then
        let r1 := (c :: cs).drop 3
        let r2 := if startsW ['j', 's', 'o', 'n'] r1 then r1.drop 4 else r1
        let (r3, nl) := dropWsNl r2 false
        stripOpensF f nl r3
      else c :: stripOpensF f (c == '\n') cs

/-- `re.sub(r'^```(?:json)?\s*', '', text, flags=re.MULTILINE)` (the string
start is a line start). -/
def stripOpens (s : List Char) : List Char :=
  stripOpensF (s.length + 1) true s

/-- Attempted match of `\s*```$` (MULTILINE) at the current position: a
whitespace run, three backticks, then end of string or a newline.  Because
backticks are not whitespace, only the maximal whitespace run can precede
the backticks.  Returns the remainder after the matched span. -/
def tryClose (s : List Char) : Option (List Char) :=
  match s.dropWhile isPySpace with
  | c1 :: c2 :: c3 :: r =>
      if c1 == btk && c2 == btk && c3 == btk then
        match r with
        | [] => some []
        | c :: _ => if c == '\n' then some r else none
      else none
  | _ => none

/-- One scanning pass of `re.sub(r'\s*```$', '', text, flags=re.MULTILINE)`.
`fuel` bounds the number of steps (the input length suffices). -/
def stripClosesF : Nat → List Char → List Char
  | 0, s => s
  | _+1, [] => []
  | f+1, c :: cs =>
      match tryClose (c :: cs) with
      | some rest => stripClosesF f rest
      | none => c :: stripClosesF f cs

/-- `re.sub(r'\s*```$', '', text, flags=re.MULTILINE)`. -/
def stripCloses (s : List Char) : List Char :=
  stripClosesF (s.length + 1) s

/-- The cleaning step of the response parser (`main.py` lines 211-214):
strip, remove line-leading code fences, remove line-ending code fences,
strip again. -/
def clean_text (raw : List Char) : List Char :=
  pyStrip (stripCloses (stripOpens (pyStrip raw)))

/-! ### A model of Python `json.loads` (restricted to integer numerals). -/

/-- JSON whitespace accepted between tokens by `json.loads`. -/
def isJsonWs (c : Char) : Bool :=
  c == ' ' || c == '\t' || c == '\n' || c == '\r'

/-- Skip JSON inter-token whitespace. -/
def skipJWs (s : List Char) : List Char := s.dropWhile isJsonWs

/-- Decode one escape sequence after a backslash; returns the decoded
character and the remainder. -/
def decodeEsc : List Char → Option (Char × List Char)
  | [] => none
  | e :: cs =>
    if e == '"' then some ('"', cs)
    else if e == '\\' then some ('\\', cs)
    else if e == '/' then some ('/', cs)
    else if e == 'b' then some (Char.ofNat 8, cs)
    else if e == 'f' then some (Char.ofNat 12, cs)
    else if e == 'n' then some ('\n', cs)
    else if e == 'r' then some ('\r', cs)
    else if e == 't' then some ('\t', cs)
    else if e == 'u' then
      match cs with
      | h1 :: h2 :: h3 :: h4 :: cs4 =>
        let hex? : Char → Option Nat := fun c =>
          if c.isDigit then some (c.toNat - 48)
          else if 'a' ≤ c && c ≤ 'f' then some (c.toNat - 87)
          else if 'A' ≤ c && c ≤ 'F' then some (c.toNat - 55)
          else none
        match hex? h1, hex? h2, hex? h3, hex? h4 with
        | some d1, some d2, some d3, some d4 =>
            some (Char.ofNat (((d1 * 16 + d2) * 16 + d3) * 16 + d4), cs4)
        | _, _, _, _ => none
      | _ => none
    else none

/-- Parse the body of a JSON string literal (the opening quote already
consumed): content characters until the closing quote.  Raw control
characters are rejected (`json.loads` default `strict=True`). -/
def parseStrAux : Nat → List Char → Option (List Char × List Char)
  | 0, _ => none
  | _+1, [] => none
  | f+1, c :: cs =>
    if c == '"' then some ([], cs)
    else if c == '\\' then
      match decodeEsc cs with
      | some (ch, rest) =>
          match parseStrAux f rest with
          | some (l, r) => some (ch :: l, r)
          | none => none
      | none => none
    else if c.toNat < 32 then none
    else
      match parseStrAux f cs with
      | some (l, r) => some (c :: l, r)
      | none => none

/-- Numeric value of a digit run. -/
def digitsVal (ds : List Char) : Nat :=
  ds.foldl (fun acc c => acc * 10 + (c.toNat - 48)) 0

/-- Parse a JSON integer numeral: optional minus sign, digit run with no
leading zero.  A following `.`/`e`/`E` (a float literal) is outside this
model and rejected. -/
def parseNum (s : List Char) : Option (Int × List Char) :=
  let (neg, s1) := match s with
                   | '-' :: t => (true, t)
                   | _ => (false, s)
  let ds := s1.takeWhile Char.isDigit
  let rest := s1.dropWhile Char.isDigit
  if ds.isEmpty then none
  else if ds.length > 1 && ds.headD '0' == '0' then none
  else
    match rest with
    | c :: _ => if c == '.' || c == 'e' || c == 'E' then none else
        some (if neg then -(digitsVal ds : Int) else (digitsVal ds : Int), rest)
    | [] => some (if neg then -(digitsVal ds : Int) else (digitsVal ds : Int), rest)

/-- The opening brace character (code 123). -/
def obrace : Char := Char.ofNat 123

/-- The closing brace character (code 125). -/
def cbrace : Char := Char.ofNat 125

/-- Duplicate-key handling of `json.loads` when prepending an earlier
`(k, v)` pair to the already-decoded later pairs `t`: a later assignment to
the same key wins on value, the earlier one on position. -/
def objPrepend (k : String) (v : JVal) (t : List (String × JVal)) :
    List (String × JVal) :=
  match jlookup t k with
  | some v' => (k, v') :: pyPopList t k
  | none => (k, v) :: t

/-- Recursive descent for `json.loads`, structurally recursive on `fuel`
(any bound above the input length works).  An array or object tail is
parsed by re-entering on the remainder prefixed with its opening bracket.
Trailing commas are rejected, as `json.loads` does. -/
def parseVal : Nat → List Char → Option (JVal × List Char)
  | 0, _ => none
  | f+1, s0 =>
    match skipJWs s0 with
    | [] => none
    | c :: cs =>
      if c == 'n' then
        if startsW ['u', 'l', 'l'] cs then some (.jnull, cs.drop 3) else none
      else if c == 't' then
        if startsW ['r', 'u', 'e'] cs then some (.jbool true, cs.drop 3) else none
      else if c == 'f' then
        if startsW ['a', 'l', 's', 'e'] cs then some (.jbool false, cs.drop 4) else none
      else if c == '"' then
        match parseStrAux f cs with
        | some (l, r) => some (.jstr (String.mk l), r)
        | none => none
      else if c == '[' then
        match skipJWs cs with
        | ']' :: r => some (.jarr [], r)
        | _ =>
          match parseVal f cs with
          | none => none
          | some (v, r) =>
            match skipJWs r with
            | ',' :: r2 =>
                (match skipJWs r2 with
                 | ']' :: _ => none
                 | _ =>
                   match parseVal f ('[' :: r2) with
                   | some (.jarr tl, rest) => some (.jarr (v :: tl), rest)
                   | _ => none)
            | ']' :: r2 => some (.jarr [v], r2)
            | _ => none
      else if c == obrace then
        match skipJWs cs with
        | d :: ds =>
          if d == cbrace then some (.jobj [], ds)
          else if d == '"' then
            match parseStrAux f ds with
            | none => none
            | some (kl, r1) =>
              match skipJWs r1 with
              | ':' :: r2 =>
                (match parseVal f r2 with
                 | none => none
                 | some (v, r3) =>
                   match skipJWs r3 with
                   | ',' :: r4 =>
                       (match skipJWs r4 with
                        | '"' :: _ =>
                          (match parseVal f (obrace :: r4) with
                           | some (.jobj tl, rest) =>
                               some (.jobj (objPrepend (String.mk kl) v tl), rest)
                           | _ => none)
                        | _ => none)
                   | e :: r4 => if e == cbrace then some (.jobj [(String.mk kl, v)], r4) else none
                   | [] => none)
              | _ => none
          else none
        | [] => none
      else
        match parseNum (c :: cs) with
        | some (n, r) => some (.jnum n, r)
        | none => none

/-- `json.loads` on a character list: one value, then only whitespace. -/
def json_loads (s : List Char) : Option JVal :=
  match parseVal (s.length + 1) s with
  | some (v, rest) => if (skipJWs rest).isEmpty then some v else none
  | none => none

/-- `re.search(r'\{[\s\S]*\}', text)`: the span from the first opening
brace to the last closing brace, when the latter comes after the former. -/
def braceSub (s : List Char) : Option (List Char) :=
  match s.findIdx? (fun c => c == obrace), (s.reverse.findIdx? (fun c => c == cbrace)) with
  | some i, some rj =>
      let j := s.length - 1 - rj
      if i < j then some ((s.drop i).take (j - i + 1)) else none
  | _, _ => none

/-- The response parser (`main.py` lines 210-228): clean the raw reply,
attempt a direct `json.loads`, and only if that fails parse the greedy
outermost-brace substring; `none` triggers the fallback generator. -/
def parse_reply (raw : List Char) : Option JVal :=
  let c := clean_text raw
  match json_loads c with
  | some j => some j
  | none =>
    match braceSub c with
    | some sub => json_loads sub
    | none => none

/-! ### Validation of a parsed reply (`main.py` lines 231-254). -/

/-- The per-question validity test
`"options" in q and len(q["options"]) == 4 and "answer" in q`
with Python's short-circuit and exception behaviour. -/
def qCheckM (q : JVal) : Except Unit Bool := do
  let b1 ← pyContains "options" q
  if !b1 then return false
  let ov ← pyGetStr q "options"
  let l ← pyLen ov
  if l != 4 then return false
  pyContains "answer" q

/-- The accumulation loop building `valid_questions`. -/
def validLoop : List JVal → List JVal → Except Unit (List JVal)
  | [], acc => .ok acc
  | q :: qs, acc => do
      let ok ← qCheckM q
      validLoop qs (if ok then acc ++ [q] else acc)

/-- Lines 232-241: `len(quiz_json["questions"])` followed by the validation
loop; any raised exception propagates. -/
def validCompute (j : JVal) : Except Unit (List JVal) := do
  let qsv ← pyGetStr j "questions"
  let _ ← pyLen qsv
  let qs ← pyIter qsv
  validLoop qs []

/-- Lines 231-254 as a transformer of the mutable variable `quiz_json`
(input: the parsed value; output: its value after the block, `none` for the
Python `None`).  The surrounding `except` swallows exceptions but does not
reset `quiz_json`, so a raise inside the block leaves the parsed value in
place — `some j`.  `int(n * 0.6)` is `⌊3n/5⌋`: the float product `n * 0.6`
truncates to exactly that for every realistic question count. -/
def validate_step (j : JVal) (n : Nat) : Option JVal :=
  if !j.truthy then none
  else
    match pyContains "questions" j with
    | .error _ => some j
    | .ok false => none
    | .ok true =>
      match validCompute j with
      | .error _ => some j
      | .ok valid =>
        if valid.length ≥ n then some (pySet j "questions" (.jarr (valid.take n)))
        else if valid.length ≥ (3 * n) / 5 then some (pySet j "questions" (.jarr valid))
        else none

/-! ### The Gemini call (`main.py` lines 171-265). -/

/-- Outcome of the outbound `requests.post` when a key is configured:
a timeout (`requests.exceptions.Timeout`), another transport exception, or
an HTTP response with a status code and — for the `.json()` method — an
optionally well-formed body (`none` models a body `.json()` cannot
decode). -/
inductive NetOutcome where
  | timedOut
  | transErr
  | resp (status : Nat) (body : Option JVal)

/-- `response_json["candidates"][0]["content"]["parts"][0]["text"]`,
requiring the final value to be a string (anything else raises right after,
at `raw_text.strip()`). -/
def extractText (b : JVal) : Except Unit String := do
  let c ← pyGetStr b "candidates"
  let c0 ← pyIdx c 0
  let ct ← pyGetStr c0 "content"
  let p ← pyGetStr ct "parts"
  let p0 ← pyIdx p 0
  let t ← pyGetStr p0 "text"
  match t with
  | .jstr s => pure s
  | _ => .error ()

/-- The whole guarded Gemini block (lines 174-263): the value of
`quiz_json` after the `try`/`except`.  Timeouts, transport errors, non-200
statuses, undecodable bodies, malformed envelopes and unparseable replies
all leave `quiz_json = None`; a parsed reply goes through
`validate_step`. -/
def gemini_block (net : NetOutcome) (n : Nat) : Option JVal :=
  match net with
  | .timedOut => none
  | .transErr => none
  | .resp status body =>
    if status == 200 then
      match body with
      | none => none
      | some b =>
        match extractText b with
        | .error _ => none
        | .ok raw =>
          match parse_reply raw.data with
          | none => none
          | some j => validate_step j n
    else none

/-! ### `shuffle_options` (`main.py` lines 49-77). -/

/-- The list under a `jarr`, else the empty list. -/
def asArr : JVal → List JVal
  | .jarr l => l
  | _ => []

/-- The dead correct-answer scan (lines 52-57): its computed value is used
by neither branch, but an option dict with a truthy `is_correct` and no
`text` key raises `KeyError`. -/
def scanLoop : List JVal → Except Unit Unit
  | [] => .ok ()
  | .jobj m :: rest => do
      let ic ← pyDictGet (.jobj m) "is_correct" .jnull
      if ic.truthy then
        let _ ← pyGetStr (.jobj m) "text"
        pure ()
      else scanLoop rest
  | _ :: rest => scanLoop rest

/-- `random.shuffle(x)`: permutes a list via the oracle `shuf`; on an
immutable or unindexable `x` it raises as soon as it attempts an item
assignment, which happens exactly when `len(x) ≥ 2` (and `len` itself
raises on numbers, booleans and `None`). -/
def pyShuffle (shuf : List JVal → List JVal) : JVal → Except Unit JVal
  | .jarr l => .ok (.jarr (shuf l))
  | .jstr s => if s.data.length ≤ 1 then .ok (.jstr s) else .error ()
  | .jobj l => if l.length ≤ 1 then .ok (.jobj l) else .error ()
  | _ => .error ()

/-- The `elif "answer" in question` conversion branch (lines 65-75):
shuffle the string options, convert each entry `opt` to
`{"text": opt, "is_correct": opt == correct_answer}`, drop `answer`.
With no `answer` key the question is left untouched. -/
def shuffle_conv (shuf : List JVal → List JVal) (q : JVal) : Except Unit JVal := do
  let b ← pyContains "answer" q
  if b then do
    let ca ← pyGetStr q "answer"
    let ol ← pyDictGet q "options" (.jarr [])
    let sh ← pyShuffle shuf ol
    let opts ← pyIter sh
    let newOpts := opts.map (fun o => JVal.jobj [("text", o), ("is_correct", .jbool (pyEq o ca))])
    pure (pyPop (pySet q "options" (.jarr newOpts)) "answer")
  else pure q

/-- The per-question body of `shuffle_options`: the dead scan, then either
the in-place shuffle of already-canonical options (first entry a dict) or
the conversion branch. -/
def shuffle_one (shuf : List JVal → List JVal) (q : JVal) : Except Unit JVal := do
  let ov ← pyDictGet q "options" (.jarr [])
  let items ← pyIter ov
  let _ ← scanLoop items
  let ov2 ← pyDictGet q "options" .jnull
  if ov2.truthy then do
    let ovv ← pyGetStr q "options"
    let o0 ← pyIdx ovv 0
    match ovv, o0 with
    | .jarr l, .jobj _ => pure (pySet q "options" (.jarr (shuf l)))
    | _, _ => shuffle_conv shuf q
  else shuffle_conv shuf q

/-- `shuffle_options` over the question list; an exception in any question
aborts the call (and, at its call site, the request). -/
def shuffle_options (shuf : List JVal → List JVal) : List JVal → Except Unit (List JVal)
  | [] => .ok []
  | q :: qs => do
      let q' ← shuffle_one shuf q
      let r ← shuffle_options shuf qs
      pure (q' :: r)

/-- Line 335 applies `shuffle_options` to `quiz_json["questions"]`,
whatever that value is: a list is processed question by question; an empty
string or empty dict iterates zero times and is returned unchanged; any
non-empty non-list (its first element is not a dict) or non-iterable value
raises. -/
def shuffleTop (shuf : List JVal → List JVal) : JVal → Except Unit JVal
  | .jarr l => do
      let r ← shuffle_options shuf l
      pure (.jarr r)
  | .jstr s => if s.data.isEmpty then .ok (.jstr s) else .error ()
  | .jobj l => if l.isEmpty then .ok (.jobj l) else .error ()
  | _ => .error ()

/-! ### The fallback generator (`main.py` lines 268-331). -/

/-- The ten phrasing templates (second component is the unused tag). -/
def templates : List (String × String) := [
  ("What does the article state about \x7btopic\x7d?", "content"),
  ("According to the article, which fact about \x7btopic\x7d is accurate?", "fact"),
  ("What information is provided regarding \x7btopic\x7d?", "information"),
  ("The article mentions \x7btopic\x7d. What is emphasized?", "emphasis"),
  ("Which statement about \x7btopic\x7d is supported by the article?", "statement"),
  ("What key detail about \x7btopic\x7d does the article include?", "detail"),
  ("According to the Wikipedia article, what is true about \x7btopic\x7d?", "truth"),
  ("The article discusses \x7btopic\x7d. What is highlighted?", "highlight"),
  ("What aspect of \x7btopic\x7d does the article specifically address?", "aspect"),
  ("Which characteristic of \x7btopic\x7d is described in the article?", "characteristic")]

/-- The five rotating distractor sets. -/
def distractor_sets : List (List String) := [
  ["Information not mentioned in the article", "An unrelated historical fact",
   "A different topic entirely"],
  ["Content from another subject", "An incorrect interpretation", "A misattributed fact"],
  ["Unrelated information", "A different time period", "An alternative topic"],
  ["Information outside the article scope", "A contradicting statement",
   "An unmentioned detail"],
  ["A topic not covered here", "Incorrect historical data", "Unrelated subject matter"]]

/-- The placeholder of the templates. -/
def topicPat : List Char := Char.ofNat 123 :: 't' :: 'o' :: 'p' :: 'i' :: 'c' :: [Char.ofNat 125]

/-- Substitute every occurrence of the placeholder (fuel-driven scan). -/
def substTopicF : Nat → List Char → List Char → List Char
  | 0, _, s => s
  | _+1, _, [] => []
  | f+1, rep, c :: cs =>
      if startsW topicPat (c :: cs) then rep ++ substTopicF f rep ((c :: cs).drop 7)
      else c :: substTopicF f rep cs

/-- `template.format(topic=article_title)`. -/
def pyFormatTopic (template topic : String) : String :=
  String.mk (substTopicF (template.data.length + 1) topic.data template.data)

/-- Line 272: sentence pool of the fallback —
`[s.strip() for s in article_text.split('.') if len(s.strip()) > 60][:n * 3]`. -/
def fbSentences (text : List Char) (n : Nat) : List (List Char) :=
  (((splitDot text).map pyStrip).filter (fun s => s.length > 60)).take (n * 3)

/-- Line 302: the correct option —
`sentences[i][:120] + ("..." if len(sentences[i]) > 120 else "")`. -/
def truncSentence (s : List Char) : String :=
  String.mk (s.take 120) ++ (if s.length > 120 then "..." else "")

/-- The `i`-th fallback question (lines 299-324): a sentence-based question
while sentences remain, else the generic article-topic question. -/
def fallback_q (title diff : String) (sents : List (List Char)) (i : Nat) : JVal :=
  match sents.get? i with
  | some s =>
      let correct := truncSentence s
      .jobj [
        ("question", .jstr (pyFormatTopic (templates.getD (i % templates.length) ("", "")).1 title)),
        ("options", .jarr (.jstr correct ::
            (distractor_sets.getD (i % distractor_sets.length) []).map JVal.jstr)),
        ("answer", .jstr correct),
        ("difficulty", .jstr diff),
        ("explanation", .jstr ("This information is stated in the article about " ++ title ++ "."))]
  | none =>
      .jobj [
        ("question", .jstr "What is this Wikipedia article primarily about?"),
        ("options", .jarr [.jstr title, .jstr "An unrelated topic", .jstr "A different subject",
                           .jstr "Another area of study"]),
        ("answer", .jstr title),
        ("difficulty", .jstr diff),
        ("explanation", .jstr ("The article focuses on " ++ title ++ "."))]

/-- The `for i in range(data.number_of_questions)` loop. -/
def fallback_questions (title diff : String) (text : List Char) (n : Nat) : List JVal :=
  (List.range n).map (fallback_q title diff (fbSentences text n))

/-- Lines 326-329: the fallback `quiz_json`. -/
def fallback_quiz (title diff : String) (text : List Char) (n : Nat) : JVal :=
  .jobj [("questions", .jarr (fallback_questions title diff text n)),
         ("related_topics", .jarr [.jstr title, .jstr "Wikipedia", .jstr "General Knowledge"])]

/-! ### The endpoint `POST /quiz` (`main.py` lines 84-355). -/

/-- The request body. -/
structure QuizRequest where
  url : String
  difficulty : String
  number_of_questions : Nat

/-- The parsed page as far as the endpoint looks at it: the text of the
first `h1` (prefering class `firstHeading`), if any, and the text of every
`p` element in document order.  HTML fetching and parsing themselves are
collaborators outside the verified core. -/
structure Page where
  h1 : Option String
  paras : List String

/-- Outcome of `requests.get(...)` plus `raise_for_status()`: either an
exception (network error, timeout, or non-2xx status — all caught by the
same handler) with its message, or a page. -/
inductive FetchOutcome where
  | fetchFail (msg : String)
  | fetched (page : Page)

/-- Line 100: `title_tag.get_text().strip() if title_tag else "Wikipedia Article"`. -/
def articleTitle (p : Page) : String :=
  match p.h1 with
  | some t => String.mk (pyStrip t.data)
  | none => "Wikipedia Article"

/-- Line 106: paragraphs whose stripped text exceeds 50 characters. -/
def qualifyingParas (p : Page) : List String :=
  (p.paras.map (fun s => String.mk (pyStrip s.data))).filter (fun s => s.data.length > 50)

/-- Python `"\n".join(...)`. -/
def joinNl : List String → String
  | [] => ""
  | [x] => x
  | x :: y :: t => x ++ "\n" ++ joinNl (y :: t)

/-- Lines 103-107: paragraph and character caps scale with the question
count; the kept paragraphs are joined and truncated. -/
def articleText (p : Page) (n : Nat) : String :=
  let numParas := if n ≤ 5 then 15 else 25
  let maxChars := if n ≤ 5 then 6000 else 10000
  String.mk ((joinNl ((qualifyingParas p).take numParas)).data.take maxChars)

/-- A row of the `quiz_history` table (`models.py`): `id` (auto-increment
primary key), `url`, `title`, `quiz_json` (stored as `json.dumps` text;
the dumps / loads round trip is modelled as the identity), `summary`.
The model has no creation-timestamp column. -/
structure QuizHistory where
  id : Nat
  url : String
  title : String
  quiz_json : JVal
  summary : String

/-- Auto-increment id for a fresh row. -/
def nextId (db : List QuizHistory) : Nat :=
  (db.map (fun r => r.id)).foldr Nat.max 0 + 1

/-- What the endpoint hands back to FastAPI: a JSON response, an
`HTTPException`, or an unhandled exception (which the framework turns into
an HTTP 500 error response). -/
inductive ApiOut where
  | ok (title : String) (questions : JVal) (related : JVal)
  | httpErr (code : Nat) (msg : String)
  | crash

/-- Result of one `POST /quiz` request: the response, the table after the
request, and two instrumentation flags — whether an outbound generation
request was sent and whether the fallback branch ran. -/
structure RunOut where
  out : ApiOut
  db : List QuizHistory
  attempted : Bool
  fellBack : Bool

/-- Truthiness of `GEMINI_API_KEY` (unset, or set to a possibly empty
string). -/
def keyTruthy : Option String → Bool
  | none => false
  | some k => !k.data.isEmpty

/-- The keys of `difficulty_instructions`; building the prompt evaluates
`difficulty_instructions[data.difficulty]`, so any other difficulty raises
`KeyError` before the generation call. -/
def difficultyKeys : List String := ["easy", "medium", "hard"]

/-- The endpoint `POST /quiz` (`generate_quiz` in `main.py`), parameterised
by the outcomes of its two outbound calls, the shuffle oracle and the
current table. -/
def generate_quiz (req : QuizRequest) (fetch : FetchOutcome) (apiKey : Option String)
    (net : NetOutcome) (shuf : List JVal → List JVal) (db : List QuizHistory) : RunOut :=
  match fetch with
  | .fetchFail msg =>
      ⟨.httpErr 400 ("Failed to fetch URL: " ++ msg), db, false, false⟩
  | .fetched page =>
    let title := articleTitle page
    let text := articleText page req.number_of_questions
    if text.data.isEmpty then
      ⟨.httpErr 400 "No article text found in the page", db, false, false⟩
    else if !(difficultyKeys.contains req.difficulty) then
      ⟨.crash, db, false, false⟩
    else
      let attempted := keyTruthy apiKey
      let qj : Option JVal :=
        if attempted then gemini_block net req.number_of_questions else none
      let withFb : JVal × Bool :=
        match qj with
        | none => (fallback_quiz title req.difficulty text.data req.number_of_questions, true)
        | some j => (j, false)
      let qj2 := withFb.1
      let fellBack := withFb.2
      match pyGetStr qj2 "questions" with
      | .error _ => ⟨.crash, db, attempted, fellBack⟩
      | .ok qsv =>
        match shuffleTop shuf qsv with
        | .error _ => ⟨.crash, db, attempted, fellBack⟩
        | .ok shuffled =>
          let qj3 := pySet qj2 "questions" shuffled
          let row : QuizHistory :=
            ⟨nextId db, req.url, title, qj3, String.mk (text.data.take 500)⟩
          let related :=
            match qj3 with
            | .jobj l => (jlookup l "related_topics").getD (.jarr [])
            | _ => .jarr []
          ⟨.ok title shuffled related, db ++ [row], attempted, fellBack⟩

/-! ### The endpoint `GET /history` (`main.py` lines 358-369). -/

/-- Insertion into a list already sorted by descending id. -/
def insertDescById (r : QuizHistory) : List QuizHistory → List QuizHistory
  | [] => [r]
  | x :: xs => if x.id ≤ r.id then r :: x :: xs else x :: insertDescById r xs

/-- `order_by(QuizHistory.id.desc())`. -/
def sortDescById : List QuizHistory → List QuizHistory
  | [] => []
  | x :: xs => insertDescById x (sortDescById xs)

/-- One element of the `GET /history` response. -/
structure HistEntry where
  url : String
  title : String
  created_at : String
  quiz_data : JVal

/-- `GET /history`: all rows, newest first, with
`"created_at": str(r.id)` — the decimal string of the primary key. -/
def get_history (db : List QuizHistory) : List HistEntry :=
  (sortDescById db).map (fun r => ⟨r.url, r.title, toString r.id, r.quiz_json⟩)

/-! ### Observation helpers used by the theorems. -/

/-- Total dict lookup (null when absent or not a dict). -/
def jget (j : JVal) (k : String) : JVal :=
  match j with
  | .jobj l => (jlookup l k).getD .jnull
  | _ => .jnull

/-- The question list of a successful response. -/
def outQs (o : ApiOut) : List JVal :=
  match o with
  | .ok _ qs _ => asArr qs
  | _ => []

/-- The `related_topics` of a successful response. -/
def outRel (o : ApiOut) : JVal :=
  match o with
  | .ok _ _ r => r
  | _ => .jnull

/-- The options list of a question in canonical form. -/
def qOptions (q : JVal) : List JVal := asArr (jget q "options")

/-- How many options of a question carry a truthy `is_correct`. -/
def countCorrect (q : JVal) : Nat :=
  (qOptions q).countP (fun o => (jget o "is_correct").truthy)

set_option maxRecDepth 100000

/-! ### Helper lemmas on the dict model. -/

theorem any_key_eq_isSome (m : List (String × JVal)) (k : String) :
    m.any (fun kv => kv.1 == k) = (jlookup m k).isSome := by
  induction m with
  | nil => simp [jlookup]
  | cons kv t ih =>
      cases h : kv.1 == k with
      | true => simp [jlookup, h]
      | false => simp [jlookup, h, ih]

theorem jlookup_pySetList_self (m : List (String × JVal)) (k : String) (v : JVal) :
    jlookup (pySetList m k v) k = some v := by
  induction m with
  | nil => simp [pySetList, jlookup]
  | cons kv t ih =>
      cases h : kv.1 == k with
      | true => simp [pySetList, jlookup, h]
      | false => simp [pySetList, jlookup, h, ih]

theorem jlookup_pySetList_ne (m : List (String × JVal)) (k v : _) (k' : String)
    (h : k' ≠ k) : jlookup (pySetList m k v) k' = jlookup m k' := by
  induction m with
  | nil =>
      have : (k == k') = false := by
        simpa using fun hkk => h (by simpa using hkk.symm)
      simp [pySetList, jlookup, this]
  | cons kv t ih =>
      cases hk : kv.1 == k with
      | true =>
          have h1 : kv.1 = k := by simpa using hk
          have h2 : (k == k') = false := by
            simpa using fun hkk => h (by simpa using hkk.symm)
          simp [pySetList, hk, jlookup, h1, h2]
      | false => simp [pySetList, hk, jlookup, ih]

theorem jlookup_pyPopList_ne (m : List (String × JVal)) (k k' : String)
    (h : k' ≠ k) : jlookup (pyPopList m k) k' = jlookup m k' := by
  induction m with
  | nil => simp [pyPopList]
  | cons kv t ih =>
      cases hk : kv.1 == k with
      | true =>
          have h1 : kv.1 = k := by simpa using hk
          have h2 : (kv.1 == k') = false := by
            simp [h1]
            exact fun hkk => h hkk.symm
          simp [pyPopList, hk, jlookup, h2]
      | false => simp [pyPopList, hk, jlookup, ih]

/-! ### Characterisation of the validation step. -/

/-- A reply question of ordinary shape: a dict whose `options` value, when
present, is a list.  (Only exotic shapes — non-dict questions, or an
`options` value that is a number, `None` or a boolean — fall outside; they
make the validation loop raise instead of dropping the question.) -/
def wellShaped (q : JVal) : Bool :=
  match q with
  | .jobj m =>
      match jlookup m "options" with
      | some (.jarr _) => true
      | some _ => false
      | none => true
  | _ => false

/-- The effective validity predicate of `main.py` line 238: an `options`
list of length exactly 4 and a present `answer` key (presence, not
non-emptiness). -/
def qValid (q : JVal) : Bool :=
  match q with
  | .jobj m =>
      match jlookup m "options" with
      | some (.jarr l) => l.length == 4 && (jlookup m "answer").isSome
      | _ => false
  | _ => false

theorem except_bind_ok {a b : Type} (x : a) (f : a → Except Unit b) :
    (Except.ok x >>= f) = f x := rfl

theorem except_bind_err {a b : Type} (f : a → Except Unit b) :
    ((Except.error () : Except Unit a) >>= f) = .error () := rfl

theorem except_pure {a : Type} (x : a) : (pure x : Except Unit a) = .ok x := rfl

theorem pyContains_obj (m : List (String × JVal)) (k : String) :
    pyContains k (.jobj m) = .ok ((jlookup m k).isSome) := by
  rw [show pyContains k (.jobj m) = .ok (m.any (fun kv => kv.1 == k)) from rfl,
      any_key_eq_isSome]

theorem qCheckM_eq_qValid (q : JVal) (h : wellShaped q = true) :
    qCheckM q = .ok (qValid q) := by
  match q, h with
  | .jobj m, h =>
    unfold qCheckM
    rw [pyContains_obj]
    cases ho : jlookup m "options" with
    | none => simp [qValid, ho, except_bind_ok, except_pure]
    | some ov =>
      cases ov with
      | jarr l =>
          have hg : pyGetStr (.jobj m) "options" = .ok (.jarr l) := by
            simp [pyGetStr, ho]
          simp only [ho, Option.isSome_some, except_bind_ok, Bool.not_true,
            Bool.false_eq_true, if_false, hg]
          rw [show pyLen (.jarr l) = .ok l.length from rfl]
          simp only [except_bind_ok]
          cases hl : l.length == 4 with
          | true =>
              simp only [bne, hl, Bool.not_true, Bool.false_eq_true, if_false,
                pyContains_obj, qValid, ho, Bool.true_and]
              rfl
          | false =>
              simp only [bne, hl, Bool.not_false, if_true, qValid, ho,
                Bool.false_and, except_pure]
              rfl
      | jnull => simp [wellShaped, ho] at h
      | jbool b => simp [wellShaped, ho] at h
      | jnum n => simp [wellShaped, ho] at h
      | jstr s => simp [wellShaped, ho] at h
      | jobj m2 => simp [wellShaped, ho] at h

theorem validLoop_filter (qs : List JVal) (acc : List JVal)
    (h : ∀ q ∈ qs, wellShaped q = true) :
    validLoop qs acc = .ok (acc ++ qs.filter qValid) := by
  induction qs generalizing acc with
  | nil => simp [validLoop]
  | cons q t ih =>
      have hq := qCheckM_eq_qValid q (h q (by simp))
      have ht : ∀ x ∈ t, wellShaped x = true := fun x hx => h x (by simp [hx])
      unfold validLoop
      rw [hq, except_bind_ok, ih _ ht]
      cases hv : qValid q with
      | true => simp [List.filter_cons, hv]
      | false => simp [List.filter_cons, hv]

theorem validCompute_spec (m : List (String × JVal)) (qs : List JVal)
    (hq : jlookup m "questions" = some (.jarr qs))
    (hw : ∀ q ∈ qs, wellShaped q = true) :
    validCompute (.jobj m) = .ok (qs.filter qValid) := by
  unfold validCompute
  have hg : pyGetStr (.jobj m) "questions" = .ok (.jarr qs) := by simp [pyGetStr, hq]
  rw [hg, except_bind_ok,
      show pyLen (.jarr qs) = .ok qs.length from rfl, except_bind_ok,
      show pyIter (.jarr qs) = .ok qs from rfl, except_bind_ok]
  simpa using validLoop_filter qs [] hw

theorem validate_step_spec (m : List (String × JVal)) (qs : List JVal) (n : Nat)
    (hq : jlookup m "questions" = some (.jarr qs))
    (hw : ∀ q ∈ qs, wellShaped q = true) :
    validate_step (.jobj m) n =
      (if (qs.filter qValid).length ≥ n then
         some (pySet (.jobj m) "questions" (.jarr ((qs.filter qValid).take n)))
       else if (qs.filter qValid).length ≥ (3 * n) / 5 then
         some (pySet (.jobj m) "questions" (.jarr (qs.filter qValid)))
       else none) := by
  have hm : m ≠ [] := by
    intro e
    rw [e] at hq
    simp [jlookup] at hq
  have htr : (JVal.jobj m).truthy = true := by
    simp [JVal.truthy, hm]
  unfold validate_step
  simp only [htr, Bool.not_true, Bool.false_eq_true, if_false, pyContains_obj, hq,
    Option.isSome_some, validCompute_spec m qs hq hw]


/-! ### Characterisation of `shuffle_options`. -/

theorem pyDictGet_obj (m : List (String × JVal)) (k : String) (dflt : JVal) :
    pyDictGet (.jobj m) k dflt = .ok ((jlookup m k).getD dflt) := by
  unfold pyDictGet
  cases h : jlookup m k <;> simp [h]

theorem pyGetStr_obj_some (m : List (String × JVal)) (k : String) (v : JVal)
    (h : jlookup m k = some v) : pyGetStr (.jobj m) k = .ok v := by
  simp [pyGetStr, h]

theorem scanLoop_ok (opts : List JVal)
    (h : ∀ o ∈ opts, ∀ mo, o = .jobj mo → (jlookup mo "text").isSome = true) :
    scanLoop opts = .ok () := by
  induction opts with
  | nil => rfl
  | cons o t ih =>
      have ht : ∀ x ∈ t, ∀ mo, x = .jobj mo → (jlookup mo "text").isSome = true :=
        fun x hx => h x (by simp [hx])
      cases o with
      | jobj mo =>
          show (do
            let ic ← pyDictGet (.jobj mo) "is_correct" .jnull
            if ic.truthy then
              let _ ← pyGetStr (.jobj mo) "text"
              pure ()
            else scanLoop t) = .ok ()
          rw [pyDictGet_obj, except_bind_ok]
          cases htr : ((jlookup mo "is_correct").getD .jnull).truthy with
          | true =>
              obtain ⟨v, hv⟩ := Option.isSome_iff_exists.mp (h _ (by simp) mo rfl)
              simp only [htr, if_true]
              rw [pyGetStr_obj_some _ _ _ hv, except_bind_ok]
              rfl
          | false =>
              simp only [htr, Bool.false_eq_true, if_false]
              exact ih ht
      | jnull => exact ih ht
      | jbool b => exact ih ht
      | jnum n => exact ih ht
      | jstr s => exact ih ht
      | jarr l => exact ih ht

theorem shuffle_conv_arr (shuf : List JVal → List JVal) (m : List (String × JVal))
    (opts : List JVal) (av : JVal)
    (ha : jlookup m "answer" = some av)
    (ho : jlookup m "options" = some (.jarr opts)) :
    shuffle_conv shuf (.jobj m) = .ok (pyPop (pySet (.jobj m) "options"
      (.jarr ((shuf opts).map (fun o =>
        JVal.jobj [("text", o), ("is_correct", .jbool (pyEq o av))])))) "answer") := by
  unfold shuffle_conv
  rw [pyContains_obj, ha, except_bind_ok]
  simp only [Option.isSome_some, if_true]
  rw [pyGetStr_obj_some _ _ _ ha, except_bind_ok, pyDictGet_obj, ho]
  simp only [Option.getD_some]
  rw [except_bind_ok,
      show pyShuffle shuf (.jarr opts) = .ok (.jarr (shuf opts)) from rfl, except_bind_ok,
      show pyIter (.jarr (shuf opts)) = .ok (shuf opts) from rfl, except_bind_ok]
  rfl

theorem shuffle_one_to_conv (shuf : List JVal → List JVal) (m : List (String × JVal))
    (o0 : JVal) (rest : List JVal)
    (ho : jlookup m "options" = some (.jarr (o0 :: rest)))
    (h0 : ∀ mo, o0 ≠ .jobj mo)
    (hstr : ∀ o ∈ o0 :: rest, ∀ mo, o = .jobj mo → (jlookup mo "text").isSome = true) :
    shuffle_one shuf (.jobj m) = shuffle_conv shuf (.jobj m) := by
  unfold shuffle_one
  rw [pyDictGet_obj, ho]
  simp only [Option.getD_some]
  rw [except_bind_ok,
      show pyIter (.jarr (o0 :: rest)) = .ok (o0 :: rest) from rfl, except_bind_ok,
      scanLoop_ok _ hstr, except_bind_ok, pyDictGet_obj, ho]
  simp only [Option.getD_some]
  rw [except_bind_ok]
  have htr : (JVal.jarr (o0 :: rest)).truthy = true := by simp [JVal.truthy]
  simp only [htr, if_true]
  rw [pyGetStr_obj_some _ _ _ ho, except_bind_ok,
      show pyIdx (.jarr (o0 :: rest)) 0 = .ok o0 from rfl, except_bind_ok]
  cases o0 with
  | jobj mo => exact absurd rfl (h0 mo)
  | jnull => rfl
  | jbool b => rfl
  | jnum n => rfl
  | jstr s => rfl
  | jarr l => rfl

theorem shuffle_one_canonical (shuf : List JVal → List JVal) (m : List (String × JVal))
    (m0 : List (String × JVal)) (rest : List JVal)
    (ho : jlookup m "options" = some (.jarr (.jobj m0 :: rest)))
    (htext : ∀ o ∈ (JVal.jobj m0) :: rest, ∀ mo, o = .jobj mo →
        (jlookup mo "text").isSome = true) :
    shuffle_one shuf (.jobj m) =
      .ok (pySet (.jobj m) "options" (.jarr (shuf (.jobj m0 :: rest)))) := by
  unfold shuffle_one
  rw [pyDictGet_obj, ho]
  simp only [Option.getD_some]
  rw [except_bind_ok,
      show pyIter (.jarr (.jobj m0 :: rest)) = .ok (.jobj m0 :: rest) from rfl, except_bind_ok,
      scanLoop_ok _ htext, except_bind_ok, pyDictGet_obj, ho]
  simp only [Option.getD_some]
  rw [except_bind_ok]
  have htr : (JVal.jarr (.jobj m0 :: rest)).truthy = true := by simp [JVal.truthy]
  simp only [htr, if_true]
  rw [pyGetStr_obj_some _ _ _ ho, except_bind_ok,
      show pyIdx (.jarr (.jobj m0 :: rest)) 0 = .ok (.jobj m0) from rfl, except_bind_ok]
  rfl

theorem qOptions_conv (m : List (String × JVal)) (newOpts : List JVal) :
    qOptions (pyPop (pySet (.jobj m) "options" (.jarr newOpts)) "answer") = newOpts := by
  show asArr ((jget (.jobj (pyPopList (pySetList m "options" (.jarr newOpts)) "answer")) "options"))
      = newOpts
  show asArr ((jlookup (pyPopList (pySetList m "options" (.jarr newOpts)) "answer")
      "options").getD .jnull) = newOpts
  rw [jlookup_pyPopList_ne _ _ _ (by decide), jlookup_pySetList_self]
  rfl

theorem qOptions_set (m : List (String × JVal)) (newOpts : List JVal) :
    qOptions (pySet (.jobj m) "options" (.jarr newOpts)) = newOpts := by
  show asArr ((jlookup (pySetList m "options" (.jarr newOpts)) "options").getD .jnull) = newOpts
  rw [jlookup_pySetList_self]
  rfl

theorem pyEq_str (a b : String) : pyEq (.jstr a) (.jstr b) = (a == b) := rfl

theorem countCorrect_conv (m : List (String × JVal)) (av : JVal) (l : List JVal) :
    countCorrect (pyPop (pySet (.jobj m) "options"
      (.jarr (l.map (fun o =>
        JVal.jobj [("text", o), ("is_correct", .jbool (pyEq o av))])))) "answer") =
    l.countP (fun o => pyEq o av) := by
  unfold countCorrect
  rw [qOptions_conv, List.countP_map]
  rfl

/-! ### The fallback questions under `shuffle_options`. -/

theorem strs_no_jobj (x : String) (ss : List String) :
    ∀ o ∈ JVal.jstr x :: ss.map JVal.jstr, ∀ mo, o = .jobj mo →
      (jlookup mo "text").isSome = true := by
  intro o ho mo he
  rcases List.mem_cons.mp ho with h1 | h2
  · subst h1; cases he
  · obtain ⟨d, _, rfl⟩ := List.mem_map.mp h2
    cases he

theorem countP_str_head (correct : String) (ds : List String)
    (hd : ∀ d ∈ ds, d ≠ correct) :
    (JVal.jstr correct :: ds.map JVal.jstr).countP
      (fun o => pyEq o (.jstr correct)) = 1 := by
  rw [List.countP_cons, List.countP_map]
  have h0 : ds.countP ((fun o => pyEq o (.jstr correct)) ∘ JVal.jstr) = 0 := by
    rw [List.countP_eq_zero]
    intro d hdm
    have : ¬(d = correct) := hd d hdm
    simpa [Function.comp, pyEq_str] using this
  rw [h0]
  simp [pyEq_str]

theorem distractor_sets_getD_length (i : Nat) :
    (distractor_sets.getD (i % distractor_sets.length) []).length = 3 := by
  have h5 : i % distractor_sets.length < 5 := Nat.mod_lt _ (by decide)
  set k := i % distractor_sets.length with hk
  interval_cases k <;> rfl

theorem mem3_cases {a b c d : String} (h : d ∈ [a, b, c]) : d = a ∨ d = b ∨ d = c := by
  simpa using h

theorem distractor_sets_short (i : Nat) (d : String)
    (hd : d ∈ distractor_sets.getD (i % distractor_sets.length) []) :
    d.data.length < 61 := by
  have h5 : i % distractor_sets.length < 5 := Nat.mod_lt _ (by decide)
  set k := i % distractor_sets.length with hk
  interval_cases k <;>
    (rcases mem3_cases hd with rfl | rfl | rfl <;> decide)

theorem truncSentence_long (s : List Char) (h : 60 < s.length) :
    61 ≤ (truncSentence s).data.length := by
  have hd : ∀ l : List Char, (String.mk l).data = l := fun _ => rfl
  unfold truncSentence
  by_cases h120 : s.length > 120
  · rw [if_pos h120, String.data_append, hd]
    have h3 : ("..." : String).data.length = 3 := rfl
    rw [List.length_append, h3, List.length_take]
    omega
  · rw [if_neg h120, String.data_append, hd]
    have h0 : ("" : String).data.length = 0 := rfl
    rw [List.length_append, h0, List.length_take]
    omega

theorem shuffle_options_ok_of (shuf : List JVal → List JVal) (P : JVal → Prop)
    (qs : List JVal)
    (h : ∀ q ∈ qs, ∃ q', shuffle_one shuf q = .ok q' ∧ P q') :
    ∃ qs', shuffle_options shuf qs = .ok qs' ∧ qs'.length = qs.length ∧
      ∀ q' ∈ qs', P q' := by
  induction qs with
  | nil => exact ⟨[], rfl, rfl, by simp⟩
  | cons q t ih =>
      obtain ⟨q', hq', hP⟩ := h q (by simp)
      obtain ⟨ts', hts', hlen, hPs⟩ := ih (fun x hx => h x (by simp [hx]))
      refine ⟨q' :: ts', ?_, by simp [hlen], ?_⟩
      · unfold shuffle_options
        rw [hq', except_bind_ok, hts', except_bind_ok]
        rfl
      · intro x hx
        rcases List.mem_cons.mp hx with rfl | hx2
        · exact hP
        · exact hPs x hx2

theorem shuffle_one_strQ (shuf : List JVal → List JVal)
    (hperm : ∀ l, (shuf l).Perm l)
    (qtext correct diff expl : String) (ds : List String)
    (hd : ∀ d ∈ ds, d ≠ correct) :
    ∃ q', shuffle_one shuf (.jobj [("question", .jstr qtext),
      ("options", .jarr (.jstr correct :: ds.map JVal.jstr)),
      ("answer", .jstr correct), ("difficulty", .jstr diff),
      ("explanation", .jstr expl)]) = .ok q' ∧
      (qOptions q').length = 1 + ds.length ∧ countCorrect q' = 1 := by
  have ho : jlookup [("question", JVal.jstr qtext),
      ("options", JVal.jarr (.jstr correct :: ds.map JVal.jstr)),
      ("answer", JVal.jstr correct), ("difficulty", JVal.jstr diff),
      ("explanation", JVal.jstr expl)] "options" =
      some (.jarr (.jstr correct :: ds.map JVal.jstr)) := rfl
  have ha : jlookup [("question", JVal.jstr qtext),
      ("options", JVal.jarr (.jstr correct :: ds.map JVal.jstr)),
      ("answer", JVal.jstr correct), ("difficulty", JVal.jstr diff),
      ("explanation", JVal.jstr expl)] "answer" = some (.jstr correct) := rfl
  have h1 := shuffle_one_to_conv shuf _ (.jstr correct) (ds.map .jstr) ho
    (by intro mo h; cases h) (strs_no_jobj correct ds)
  have h2 := shuffle_conv_arr shuf _ (.jstr correct :: ds.map .jstr) (.jstr correct) ha ho
  refine ⟨_, h1.trans h2, ?_, ?_⟩
  · rw [qOptions_conv, List.length_map, (hperm _).length_eq]
    simp only [List.length_cons, List.length_map]
    omega
  · rw [countCorrect_conv, List.Perm.countP_eq _ (hperm _)]
    exact countP_str_head correct ds hd

theorem shuffle_one_fallback (shuf : List JVal → List JVal)
    (hperm : ∀ l, (shuf l).Perm l)
    (title diff : String) (sents : List (List Char)) (i : Nat)
    (hs : ∀ s ∈ sents, 60 < s.length)
    (htitle : title ∉ ["An unrelated topic", "A different subject", "Another area of study"]) :
    ∃ q', shuffle_one shuf (fallback_q title diff sents i) = .ok q' ∧
      (qOptions q').length = 4 ∧ countCorrect q' = 1 := by
  cases hg : sents.get? i with
  | some s =>
      have hsl : 60 < s.length := hs s (List.get?_mem hg)
      have hq : fallback_q title diff sents i = .jobj [
          ("question", .jstr (pyFormatTopic (templates.getD (i % templates.length) ("", "")).1 title)),
          ("options", .jarr (.jstr (truncSentence s) ::
              (distractor_sets.getD (i % distractor_sets.length) []).map JVal.jstr)),
          ("answer", .jstr (truncSentence s)),
          ("difficulty", .jstr diff),
          ("explanation", .jstr ("This information is stated in the article about " ++ title ++ "."))] := by
        unfold fallback_q
        rw [hg]
      have hd : ∀ d ∈ distractor_sets.getD (i % distractor_sets.length) [],
          d ≠ truncSentence s := by
        intro d hdm he
        have hl1 := distractor_sets_short i d hdm
        have hl2 := truncSentence_long s hsl
        rw [he] at hl1
        omega
      obtain ⟨q', hq', hlen, hcnt⟩ := shuffle_one_strQ shuf hperm
        (pyFormatTopic (templates.getD (i % templates.length) ("", "")).1 title)
        (truncSentence s) diff
        ("This information is stated in the article about " ++ title ++ ".")
        (distractor_sets.getD (i % distractor_sets.length) []) hd
      rw [hq]
      exact ⟨q', hq', by rw [hlen, distractor_sets_getD_length], hcnt⟩
  | none =>
      have hq : fallback_q title diff sents i = .jobj [
          ("question", .jstr "What is this Wikipedia article primarily about?"),
          ("options", .jarr [.jstr title, .jstr "An unrelated topic",
              .jstr "A different subject", .jstr "Another area of study"]),
          ("answer", .jstr title),
          ("difficulty", .jstr diff),
          ("explanation", .jstr ("The article focuses on " ++ title ++ "."))] := by
        unfold fallback_q
        rw [hg]
      have hd : ∀ d ∈ ["An unrelated topic", "A different subject", "Another area of study"],
          d ≠ title := by
        intro d hdm he
        exact htitle (he ▸ hdm)
      obtain ⟨q', hq', hlen, hcnt⟩ := shuffle_one_strQ shuf hperm
        "What is this Wikipedia article primarily about?" title diff
        ("The article focuses on " ++ title ++ ".")
        ["An unrelated topic", "A different subject", "Another area of study"] hd
      rw [hq]
      exact ⟨q', hq', by rw [hlen]; rfl, hcnt⟩

/-! ### Reduction of the endpoint along the fallback path. -/

theorem generate_quiz_fallback_eq (req : QuizRequest) (page : Page) (net : NetOutcome)
    (shuf : List JVal → List JVal) (db : List QuizHistory) (qs' : List JVal)
    (htext : (articleText page req.number_of_questions).data.isEmpty = false)
    (hdiff : difficultyKeys.contains req.difficulty = true)
    (hshuf : shuffle_options shuf (fallback_questions (articleTitle page) req.difficulty
        (articleText page req.number_of_questions).data req.number_of_questions) = .ok qs') :
    generate_quiz req (.fetched page) none net shuf db =
      ⟨.ok (articleTitle page) (.jarr qs')
          (.jarr [.jstr (articleTitle page), .jstr "Wikipedia", .jstr "General Knowledge"]),
       db ++ [⟨nextId db, req.url, articleTitle page,
          pySet (fallback_quiz (articleTitle page) req.difficulty
            (articleText page req.number_of_questions).data req.number_of_questions)
            "questions" (.jarr qs'),
          String.mk ((articleText page req.number_of_questions).data.take 500)⟩],
       false, true⟩ := by
  have hst : shuffleTop shuf (.jarr (fallback_questions (articleTitle page) req.difficulty
      (articleText page req.number_of_questions).data req.number_of_questions)) =
      .ok (.jarr qs') := by
    have h2 : (shuffle_options shuf (fallback_questions (articleTitle page) req.difficulty
        (articleText page req.number_of_questions).data req.number_of_questions) >>=
          (fun r => (pure (JVal.jarr r) : Except Unit JVal))) = Except.ok (JVal.jarr qs') := by
      rw [hshuf, except_bind_ok]
      rfl
    exact h2
  have hpg : pyGetStr (fallback_quiz (articleTitle page) req.difficulty
      (articleText page req.number_of_questions).data req.number_of_questions) "questions" =
      .ok (.jarr (fallback_questions (articleTitle page) req.difficulty
        (articleText page req.number_of_questions).data req.number_of_questions)) := rfl
  unfold generate_quiz
  dsimp only
  rw [htext, hdiff]
  simp only [Bool.false_eq_true, Bool.not_true, if_false, keyTruthy]
  rw [hpg]
  dsimp only
  rw [hst]
  rfl

/-! ### Reduction of the endpoint along the LLM path. -/

theorem gemini_block_eq (b : JVal) (raw : String) (j : JVal) (n : Nat)
    (he : extractText b = .ok raw) (hp : parse_reply raw.data = some j) :
    gemini_block (.resp 200 (some b)) n = validate_step j n := by
  unfold gemini_block
  dsimp only
  rw [if_pos (show (200 == 200) = true from rfl), he]
  dsimp only
  rw [hp]

theorem generate_quiz_llm_ok (req : QuizRequest) (page : Page) (apiKey : Option String)
    (net : NetOutcome) (shuf : List JVal → List JVal) (db : List QuizHistory)
    (j' qsv shuffled : JVal)
    (htext : (articleText page req.number_of_questions).data.isEmpty = false)
    (hdiff : difficultyKeys.contains req.difficulty = true)
    (hkey : keyTruthy apiKey = true)
    (hgb : gemini_block net req.number_of_questions = some j')
    (hq : pyGetStr j' "questions" = .ok qsv)
    (hsh : shuffleTop shuf qsv = .ok shuffled) :
    generate_quiz req (.fetched page) apiKey net shuf db =
      ⟨.ok (articleTitle page) shuffled
          (match pySet j' "questions" shuffled with
            | .jobj l => (jlookup l "related_topics").getD (.jarr [])
            | _ => .jarr []),
       db ++ [⟨nextId db, req.url, articleTitle page, pySet j' "questions" shuffled,
          String.mk ((articleText page req.number_of_questions).data.take 500)⟩],
       true, false⟩ := by
  unfold generate_quiz
  dsimp only
  rw [htext, hdiff]
  simp only [Bool.false_eq_true, Bool.not_true, if_false, hkey, if_true, hgb]
  rw [hq]
  dsimp only
  rw [hsh]

theorem generate_quiz_fellBack (req : QuizRequest) (page : Page) (apiKey : Option String)
    (net : NetOutcome) (shuf : List JVal → List JVal) (db : List QuizHistory)
    (htext : (articleText page req.number_of_questions).data.isEmpty = false)
    (hdiff : difficultyKeys.contains req.difficulty = true) :
    (generate_quiz req (.fetched page) apiKey net shuf db).fellBack =
      (if keyTruthy apiKey then gemini_block net req.number_of_questions else none).isNone := by
  unfold generate_quiz
  dsimp only
  rw [htext, hdiff]
  simp only [Bool.false_eq_true, Bool.not_true, if_false]
  cases hqj : (if keyTruthy apiKey = true then gemini_block net req.number_of_questions
      else none) with
  | none =>
      dsimp only
      split <;> (try split) <;> rfl
  | some j =>
      dsimp only
      split <;> (try split) <;> rfl

/-! ### Remaining helpers. -/

theorem fbSentences_long (text : List Char) (n : Nat) :
    ∀ s ∈ fbSentences text n, 60 < s.length := by
  intro s hs
  unfold fbSentences at hs
  have h1 := List.mem_of_mem_take hs
  have h2 := List.mem_filter.mp h1
  simpa using h2.2

theorem qualifyingParas_nil (page : Page)
    (h : ∀ p ∈ page.paras, ¬(50 < (pyStrip p.data).length)) :
    qualifyingParas page = [] := by
  unfold qualifyingParas
  rw [List.filter_eq_nil]
  intro a ha
  obtain ⟨p, hp, rfl⟩ := List.mem_map.mp ha
  simpa using h p hp

theorem generate_quiz_nocontent (req : QuizRequest) (page : Page) (apiKey : Option String)
    (net : NetOutcome) (shuf : List JVal → List JVal) (db : List QuizHistory)
    (h : ∀ p ∈ page.paras, ¬(50 < (pyStrip p.data).length)) :
    generate_quiz req (.fetched page) apiKey net shuf db =
      ⟨.httpErr 400 "No article text found in the page", db, false, false⟩ := by
  have htext : (articleText page req.number_of_questions).data.isEmpty = true := by
    unfold articleText
    rw [qualifyingParas_nil page h]
    simp [joinNl, List.take_nil]
  unfold generate_quiz
  dsimp only
  rw [htext, if_pos rfl]

theorem insertDescById_perm (r : QuizHistory) (l : List QuizHistory) :
    (insertDescById r l).Perm (r :: l) := by
  induction l with
  | nil => exact List.Perm.refl _
  | cons x xs ih =>
      unfold insertDescById
      by_cases h : x.id ≤ r.id
      · rw [if_pos h]
      · rw [if_neg h]
        exact ((ih.cons x).trans (List.Perm.swap r x xs))

theorem sortDescById_perm (db : List QuizHistory) : (sortDescById db).Perm db := by
  induction db with
  | nil => exact List.Perm.refl _
  | cons x xs ih =>
      unfold sortDescById
      exact (insertDescById_perm x (sortDescById xs)).trans (ih.cons x)

/-! ### The fence-stripping behaviour of the cleaner (claim C5). -/

def lastNl : List Char → Bool → Bool
  | [], flag => flag
  | c :: cs, _ => lastNl cs (c == '\n')

theorem stripOpensF_skip (l r : List Char) (flag : Bool) (g : Nat)
    (hl : ∀ c ∈ l, c ≠ btk) :
    stripOpensF (l.length + g) flag (l ++ r) = l ++ stripOpensF g (lastNl l flag) r := by
  induction l generalizing flag with
  | nil => simp [lastNl]
  | cons c cs ih =>
      have hc : (btk == c) = false :=
        beq_eq_false_iff_ne.mpr (fun h => (hl c (by simp)) h.symm)
      have hcs : ∀ x ∈ cs, x ≠ btk := fun x hx => hl x (by simp [hx])
      have hlen : (c :: cs).length + g = (cs.length + g) + 1 := by
        simp only [List.length_cons]
        omega
      rw [hlen]
      show stripOpensF ((cs.length + g) + 1) flag (c :: (cs ++ r)) = _
      conv_lhs => unfold stripOpensF
      rw [show startsW [btk, btk, btk] (c :: (cs ++ r)) = false from by
        simp only [startsW, hc, Bool.false_and]]
      simp only [Bool.and_false, Bool.false_eq_true, if_false]
      rw [ih _ hcs]
      rfl

theorem stripOpensF_fence_start (f : Nat) (rest : List Char) (c1 : Char) (t : List Char)
    (hw1 : isPySpace c1 = false) :
    stripOpensF (f + 1) true ("```json\n".data ++ ((c1 :: t) ++ rest)) =
      stripOpensF f true ((c1 :: t) ++ rest) := by
  have hdws : dropWsNl ('\n' :: ((c1 :: t) ++ rest)) false = (((c1 :: t) ++ rest), true) := by
    conv_lhs => unfold dropWsNl
    rw [if_pos (show isPySpace '\n' = true from rfl)]
    show dropWsNl (c1 :: (t ++ rest)) ('\n' == '\n') = _
    conv_lhs => unfold dropWsNl
    rw [hw1]
    simp only [Bool.false_eq_true, if_false]
    rfl
  show stripOpensF (f + 1) true
      (btk :: btk :: btk :: 'j' :: 's' :: 'o' :: 'n' :: '\n' :: ((c1 :: t) ++ rest)) =
    stripOpensF f true ((c1 :: t) ++ rest)
  conv_lhs => unfold stripOpensF
  rw [show (true && startsW [btk, btk, btk]
      (btk :: btk :: btk :: 'j' :: 's' :: 'o' :: 'n' :: '\n' :: ((c1 :: t) ++ rest))) = true from by
    rfl]
  rw [if_pos rfl]
  show stripOpensF f (dropWsNl ('\n' :: ((c1 :: t) ++ rest)) false).2
      (dropWsNl ('\n' :: ((c1 :: t) ++ rest)) false).1 = stripOpensF f true ((c1 :: t) ++ rest)
  rw [hdws]

theorem stripOpens_fenced (c1 : Char) (t : List Char)
    (hw1 : isPySpace c1 = false) (hbtk : ∀ c ∈ c1 :: t, c ≠ btk) :
    stripOpens ("```json\n".data ++ ((c1 :: t) ++ "\n```".data)) = (c1 :: t) ++ ['\n'] := by
  unfold stripOpens
  rw [show ("```json\n".data ++ ((c1 :: t) ++ "\n```".data)).length + 1 =
      (((c1 :: t).length + 12) + 1) from by simp [List.length_append]]
  rw [stripOpensF_fence_start _ _ _ _ hw1]
  rw [show (c1 :: t).length + 12 = (c1 :: t).length + 12 from rfl,
      stripOpensF_skip (c1 :: t) "\n```".data true 12 hbtk]
  congr 1
  cases lastNl (c1 :: t) true <;> rfl

theorem tryClose_none (l : List Char) (h : ∀ c ∈ l, c ≠ btk) : tryClose l = none := by
  unfold tryClose
  have hsub : ∀ c ∈ l.dropWhile isPySpace, c ≠ btk :=
    fun c hc => h c ((List.dropWhile_sublist _).subset hc)
  cases hd : l.dropWhile isPySpace with
  | nil => rfl
  | cons c1 t1 =>
    cases t1 with
    | nil => rfl
    | cons c2 t2 =>
      cases t2 with
      | nil => rfl
      | cons c3 r =>
        have hc1 : (c1 == btk) = false := by
          have := hsub c1 (by rw [hd]; simp)
          exact beq_eq_false_iff_ne.mpr this
        show (if (c1 == btk && c2 == btk && c3 == btk) = true then
            match r with
            | [] => some ([] : List Char)
            | c :: _ => if (c == '\n') = true then some r else none
          else none) = none
        simp only [hc1, Bool.false_and, Bool.false_eq_true, if_false]

theorem stripClosesF_no_btk (f : Nat) (l : List Char) (h : ∀ c ∈ l, c ≠ btk) :
    stripClosesF f l = l := by
  induction f generalizing l with
  | zero => rfl
  | succ f ih =>
      cases l with
      | nil => rfl
      | cons c cs =>
          show stripClosesF (f + 1) (c :: cs) = c :: cs
          conv_lhs => unfold stripClosesF
          rw [tryClose_none _ h, ih cs (fun x hx => h x (by simp [hx]))]

theorem dropWhile_head_false (p : Char → Bool) (c : Char) (l : List Char)
    (h : p c = false) : (c :: l).dropWhile p = c :: l := by
  rw [List.dropWhile_cons, h]
  simp

theorem pyStrip_fenced (c1 c2 : Char) (t : List Char)
    (hw1 : isPySpace c1 = false)
    (h2 : (c1 :: t).getLast? = some c2) (hw2 : isPySpace c2 = false) :
    pyStrip ((c1 :: t) ++ ['\n']) = c1 :: t := by
  unfold pyStrip
  rw [show (c1 :: t) ++ ['\n'] = c1 :: (t ++ ['\n']) from rfl,
      dropWhile_head_false _ _ _ hw1]
  rw [show (c1 :: (t ++ ['\n'])).reverse = '\n' :: (c1 :: t).reverse from by
    rw [show c1 :: (t ++ ['\n']) = (c1 :: t) ++ ['\n'] from rfl, List.reverse_append]
    rfl]
  rw [List.dropWhile_cons, show isPySpace '\n' = true from rfl]
  simp only [if_true]
  have hrev : (c1 :: t).reverse.head? = some c2 := by
    rw [List.head?_reverse]
    exact h2
  cases hr : (c1 :: t).reverse with
  | nil => simp at hr
  | cons d r =>
      rw [hr] at hrev
      have hd : d = c2 := by simpa using hrev
      subst hd
      rw [dropWhile_head_false _ _ _ hw2, ← hr, List.reverse_reverse]

theorem pyStrip_no_ws (l : List Char) (c1 c2 : Char)
    (h1 : l.head? = some c1) (hw1 : isPySpace c1 = false)
    (h2 : l.getLast? = some c2) (hw2 : isPySpace c2 = false) :
    pyStrip l = l := by
  unfold pyStrip
  cases l with
  | nil => cases h1
  | cons c ts =>
      have hwc : isPySpace c = false := by
        have hc : c = c1 := by simpa using h1
        rw [hc]
        exact hw1
      rw [dropWhile_head_false _ _ _ hwc]
      have hrev : (c :: ts).reverse.head? = some c2 := by
        rw [List.head?_reverse]
        exact h2
      cases hr : (c :: ts).reverse with
      | nil => simp at hr
      | cons d r =>
          rw [hr] at hrev
          have hwd : isPySpace d = false := by
            have hd : d = c2 := by simpa using hrev
            rw [hd]
            exact hw2
          rw [dropWhile_head_false _ _ _ hwd, ← hr, List.reverse_reverse]

theorem clean_fenced (c1 c2 : Char) (t : List Char)
    (hbtk : ∀ c ∈ c1 :: t, c ≠ btk)
    (hw1 : isPySpace c1 = false)
    (h2 : (c1 :: t).getLast? = some c2) (hw2 : isPySpace c2 = false) :
    clean_text ("```json\n".data ++ ((c1 :: t) ++ "\n```".data)) = c1 :: t := by
  unfold clean_text
  have hA : pyStrip ("```json\n".data ++ ((c1 :: t) ++ "\n```".data)) =
      "```json\n".data ++ ((c1 :: t) ++ "\n```".data) := by
    apply pyStrip_no_ws _ btk btk
    · rfl
    · decide
    · rw [List.getLast?_eq_head?_reverse, List.reverse_append, List.reverse_append]
      rfl
    · decide
  rw [hA, stripOpens_fenced c1 t hw1 hbtk]
  have hno : ∀ c ∈ (c1 :: t) ++ ['\n'], c ≠ btk := by
    intro c hc
    rcases List.mem_append.mp hc with h | h
    · exact hbtk c h
    · simp only [List.mem_singleton] at h
      subst h
      decide
  rw [show stripCloses ((c1 :: t) ++ ['\n']) = (c1 :: t) ++ ['\n'] from
    stripClosesF_no_btk _ _ hno]
  exact pyStrip_fenced c1 c2 t hw1 h2 hw2

/-! ### Concrete fixtures used by counterexamples and witnesses. -/

/-- The Gemini 200-response envelope around a reply text
(`candidates[0].content.parts[0].text`). -/
def mkEnvelope (s : String) : JVal :=
  .jobj [("candidates", .jarr [.jobj [("content", .jobj [("parts",
    .jarr [.jobj [("text", .jstr s)]])])]])]

/-- A page with title `T` and one qualifying paragraph. -/
def fixPage : Page :=
  ⟨some "T",
   ["This paragraph is easily long enough to qualify for extraction from the page."]⟩

/-- A request for `n` easy questions. -/
def fixReq (n : Nat) : QuizRequest := ⟨"http://example.org/a", "easy", n⟩

/-- The `is_correct`-marked option texts of a question, in order. -/
def correctTexts (q : JVal) : List JVal :=
  ((qOptions q).filter (fun o => (jget o "is_correct").truthy)).map (fun o => jget o "text")

/-! ### Claim C6. -/

/-- Claim C6: if the initial fetch fails (network error, timeout or non-2xx
status — all surfaced as the same caught exception) the endpoint answers
HTTP 400 with `Failed to fetch URL: <cause>`; if the page yields no
qualifying paragraph (stripped length > 50) it answers HTTP 400 with
`No article text found in the page`.  In both cases no generation request
is attempted, the fallback does not run, and the history table is returned
unchanged — no record is inserted. -/
theorem claim_C6 :
    (∀ (req : QuizRequest) (msg : String) (apiKey : Option String) (net : NetOutcome)
       (shuf : List JVal → List JVal) (db : List QuizHistory),
       generate_quiz req (.fetchFail msg) apiKey net shuf db =
         ⟨.httpErr 400 ("Failed to fetch URL: " ++ msg), db, false, false⟩) ∧
    (∀ (req : QuizRequest) (page : Page) (apiKey : Option String) (net : NetOutcome)
       (shuf : List JVal → List JVal) (db : List QuizHistory),
       (∀ p ∈ page.paras, ¬(50 < (pyStrip p.data).length)) →
       generate_quiz req (.fetched page) apiKey net shuf db =
         ⟨.httpErr 400 "No article text found in the page", db, false, false⟩) := by
  constructor
  · intro req msg apiKey net shuf db
    rfl
  · intro req page apiKey net shuf db h
    exact generate_quiz_nocontent req page apiKey net shuf db h

/-- Witness for claim C6 at a concrete failed fetch and a concrete page
whose only paragraph is too short. -/
theorem claim_C6_witness :
    generate_quiz (fixReq 5) (.fetchFail "404 Client Error") (some "key") .transErr id [] =
      ⟨.httpErr 400 "Failed to fetch URL: 404 Client Error", [], false, false⟩ ∧
    generate_quiz (fixReq 5) (.fetched ⟨some "T", ["short"]⟩) (some "key") .transErr id [] =
      ⟨.httpErr 400 "No article text found in the page", [], false, false⟩ :=
  ⟨claim_C6.1 (fixReq 5) "404 Client Error" (some "key") .transErr id [],
   claim_C6.2 (fixReq 5) ⟨some "T", ["short"]⟩ (some "key") .transErr id []
     (by intro p hp; rw [List.mem_singleton] at hp; subst hp; decide)⟩

/-! ### Claim C10. -/

/-- Claim C10: every record of the `GET /history` response carries
`created_at = str(record.id)` — the decimal string of the auto-increment
primary key (the `QuizHistory` model stores no creation timestamp), for
every row of the table. -/
theorem claim_C10 :
    (∀ db : List QuizHistory,
       (get_history db).map (fun e => e.created_at) =
         (sortDescById db).map (fun r => toString r.id)) ∧
    (∀ (db : List QuizHistory) (r : QuizHistory), r ∈ db →
       ∃ e ∈ get_history db, e.url = r.url ∧ e.title = r.title ∧
         e.quiz_data = r.quiz_json ∧ e.created_at = toString r.id) := by
  constructor
  · intro db
    unfold get_history
    rw [List.map_map]
    rfl
  · intro db r hr
    have hm : r ∈ sortDescById db := ((sortDescById_perm db).mem_iff).mpr hr
    refine ⟨⟨r.url, r.title, toString r.id, r.quiz_json⟩, ?_, rfl, rfl, rfl, rfl⟩
    unfold get_history
    exact List.mem_map.mpr ⟨r, hm, rfl⟩

/-- Witness for claim C10 on a two-row table. -/
theorem claim_C10_witness :
    (get_history [⟨7, "u7", "t7", .jnull, "s7"⟩, ⟨9, "u9", "t9", .jnull, "s9"⟩]).map
        (fun e => e.created_at) =
      (sortDescById [⟨7, "u7", "t7", .jnull, "s7"⟩, ⟨9, "u9", "t9", .jnull, "s9"⟩]).map
        (fun r => toString r.id) ∧
    ∃ e ∈ get_history [⟨7, "u7", "t7", .jnull, "s7"⟩, ⟨9, "u9", "t9", .jnull, "s9"⟩],
      e.url = "u7" ∧ e.title = "t7" ∧ e.quiz_data = .jnull ∧ e.created_at = toString 7 :=
  ⟨claim_C10.1 _,
   claim_C10.2 [⟨7, "u7", "t7", .jnull, "s7"⟩, ⟨9, "u9", "t9", .jnull, "s9"⟩]
     ⟨7, "u7", "t7", .jnull, "s7"⟩ (by simp)⟩

/-! ### Claim C4. -/

/-- A Gemini reply that is a bare JSON string containing the word
`questions`: `json.loads` succeeds, `"questions" in quiz_json` is a
substring test that succeeds, and the subsequent subscript raises inside
the `try`, leaving `quiz_json` set to the string. -/
def c4raw : String := "\"no usable questions here\""

/-- Claim C4 evidence.  First conjunct: the no-credential run performs no
generation request and goes straight to the fallback.  Second conjunct —
the code bug: with a key configured and an HTTP-200 reply whose body is a
JSON string containing the word `questions`, the endpoint neither falls
back nor answers; it raises an uncaught `TypeError` at
`quiz_json["questions"]` (line 335), which FastAPI surfaces to the caller
as an HTTP 500 error, contradicting the claim that every generation-side
parse/validation failure is absorbed by the fallback.  No record is
inserted. -/
theorem claim_C4_evidence :
    ((generate_quiz (fixReq 5) (.fetched fixPage) none .transErr id []).attempted = false ∧
     (generate_quiz (fixReq 5) (.fetched fixPage) none .transErr id []).fellBack = true) ∧
    generate_quiz (fixReq 5) (.fetched fixPage) (some "key")
        (.resp 200 (some (mkEnvelope c4raw))) id [] =
      ⟨.crash, [], true, false⟩ :=
  ⟨⟨rfl, rfl⟩, rfl⟩

/-! ### Claim C2. -/

/-- A fully valid reply question (4 options, non-empty matching answer). -/
def c2q1 : JVal := .jobj [("question", .jstr "Q1?"),
  ("options", .jarr [.jstr "A", .jstr "B", .jstr "C", .jstr "D"]),
  ("answer", .jstr "A")]

/-- A question with 4 options but no `answer` key. -/
def c2qNoAns : JVal := .jobj [("question", .jstr "Q2?"),
  ("options", .jarr [.jstr "A", .jstr "B", .jstr "C", .jstr "D"])]

/-- A question with 4 options and an *empty-string* answer. -/
def c2qEmpty : JVal := .jobj [("question", .jstr "Q3?"),
  ("options", .jarr [.jstr "A", .jstr "B", .jstr "C", .jstr "D"]),
  ("answer", .jstr "")]

/-- A question with only 3 options. -/
def c2qBad : JVal := .jobj [("question", .jstr "Q4?"),
  ("options", .jarr [.jstr "A", .jstr "B", .jstr "C"]),
  ("answer", .jstr "A")]

theorem mem3_cases_jval {a b c d : JVal} (h : d ∈ [a, b, c]) :
    d = a ∨ d = b ∨ d = c := by
  rcases List.mem_cons.mp h with h1 | h2
  · exact Or.inl h1
  · rcases List.mem_cons.mp h2 with h3 | h4
    · exact Or.inr (Or.inl h3)
    · rcases List.mem_cons.mp h4 with h5 | h6
      · exact Or.inr (Or.inr h5)
      · cases h6

/-- Counterexample to claim C2, at two concrete parsed replies.
First: `questionCount = 2` with one valid and one answer-less question —
the code accepts the single valid question (`1 ≥ int(0.6·2) = 1`) while
the claim demands rejection and fallback because `1 < ⌈0.6·2⌉ = 2` (third
conjunct): the implemented threshold truncates, it does not round up.
Second: `questionCount = 3` with a valid question, an *empty-string*
answer and a 3-option question — the code keeps the empty-answer question
(the check is `"answer" in q`, mere key presence), while the claim says an
element lacking a *non-empty* answer is dropped. -/
theorem claim_C2_cex :
    validate_step (.jobj [("questions", .jarr [c2q1, c2qNoAns])]) 2 =
      some (.jobj [("questions", .jarr [c2q1])]) ∧
    (1 : ℕ) < Nat.ceil ((6 : ℚ) / 10 * 2) ∧
    validate_step (.jobj [("questions", .jarr [c2q1, c2qEmpty, c2qBad])]) 3 =
      some (.jobj [("questions", .jarr [c2q1, c2qEmpty])]) :=
  ⟨rfl, by rw [Nat.lt_ceil]; norm_num, rfl⟩

/-- Claim C2 as amended: dropping each question element that lacks an
`options` list of length exactly 4 or an `answer` **key** (presence only —
an empty-string answer is kept), the reply is truncated and accepted when
the remaining count reaches `questionCount`, accepted as-is when it
reaches `int(0.6 × questionCount)` (floor, not ceiling), and otherwise
rejected (`validate_step = none`), which makes the endpoint run the
fallback generator (second conjunct: the fallback runs exactly when the
generation stage hands over no quiz). -/
theorem claim_C2_amended :
    (∀ (m : List (String × JVal)) (qs : List JVal) (n : Nat),
       jlookup m "questions" = some (.jarr qs) →
       (∀ q ∈ qs, wellShaped q = true) →
       validate_step (.jobj m) n =
         (if (qs.filter qValid).length ≥ n then
            some (pySet (.jobj m) "questions" (.jarr ((qs.filter qValid).take n)))
          else if (qs.filter qValid).length ≥ (3 * n) / 5 then
            some (pySet (.jobj m) "questions" (.jarr (qs.filter qValid)))
          else none)) ∧
    (∀ (req : QuizRequest) (page : Page) (apiKey : Option String) (net : NetOutcome)
       (shuf : List JVal → List JVal) (db : List QuizHistory),
       (articleText page req.number_of_questions).data.isEmpty = false →
       difficultyKeys.contains req.difficulty = true →
       (generate_quiz req (.fetched page) apiKey net shuf db).fellBack =
         (if keyTruthy apiKey then gemini_block net req.number_of_questions
          else none).isNone) :=
  ⟨validate_step_spec, generate_quiz_fellBack⟩

/-- Witness for claim C2 as amended: the `questionCount = 3` reply above is
accepted with the two presence-valid questions, and a keyless run falls
back. -/
theorem claim_C2_witness :
    validate_step (.jobj [("questions", .jarr [c2q1, c2qEmpty, c2qBad])]) 3 =
      some (.jobj [("questions", .jarr [c2q1, c2qEmpty])]) ∧
    (generate_quiz (fixReq 5) (.fetched fixPage) none .transErr id []).fellBack = true := by
  constructor
  · rw [claim_C2_amended.1 [("questions", .jarr [c2q1, c2qEmpty, c2qBad])]
      [c2q1, c2qEmpty, c2qBad] 3 rfl (by
        intro q hq
        rcases mem3_cases_jval hq with rfl | rfl | rfl <;> rfl)]
    rfl
  · rw [claim_C2_amended.2 (fixReq 5) fixPage none .transErr id [] rfl rfl]
    rfl

/-! ### Claim C9. -/

/-- Claim C9: when `questionCount = 1` and the parsed generation reply has
a `questions` list in which no element passes validation, the implemented
threshold `int(0.6 × 1) = 0` makes the empty list pass (`0 ≥ 0`), so the
endpoint answers 200 with zero questions, persists a record whose payload
has `questions = []`, and never invokes the fallback generator. -/
theorem claim_C9 (req : QuizRequest) (page : Page) (apiKey : Option String)
    (b : JVal) (raw : String) (m : List (String × JVal)) (qs : List JVal)
    (shuf : List JVal → List JVal) (db : List QuizHistory)
    (hn : req.number_of_questions = 1)
    (htext : (articleText page req.number_of_questions).data.isEmpty = false)
    (hdiff : difficultyKeys.contains req.difficulty = true)
    (hkey : keyTruthy apiKey = true)
    (he : extractText b = .ok raw)
    (hp : parse_reply raw.data = some (.jobj m))
    (hq : jlookup m "questions" = some (.jarr qs))
    (hw : ∀ q ∈ qs, wellShaped q = true)
    (hv : ∀ q ∈ qs, qValid q = false) :
    generate_quiz req (.fetched page) apiKey (.resp 200 (some b)) shuf db =
      ⟨.ok (articleTitle page) (.jarr [])
          ((jlookup m "related_topics").getD (.jarr [])),
       db ++ [⟨nextId db, req.url, articleTitle page,
          pySet (pySet (.jobj m) "questions" (.jarr [])) "questions" (.jarr []),
          String.mk ((articleText page req.number_of_questions).data.take 500)⟩],
       true, false⟩ := by
  have hfilter : qs.filter qValid = [] := by
    rw [List.filter_eq_nil]
    intro q hqm
    simp [hv q hqm]
  have hvs : validate_step (.jobj m) req.number_of_questions =
      some (pySet (.jobj m) "questions" (.jarr [])) := by
    rw [hn, validate_step_spec m qs 1 hq hw, hfilter]
    norm_num
  have hgb : gemini_block (.resp 200 (some b)) req.number_of_questions =
      some (pySet (.jobj m) "questions" (.jarr [])) := by
    rw [gemini_block_eq b raw (.jobj m) _ he hp, hvs]
  have hpg : pyGetStr (pySet (.jobj m) "questions" (.jarr [])) "questions" =
      .ok (.jarr []) := by
    show pyGetStr (.jobj (pySetList m "questions" (.jarr []))) "questions" = _
    exact pyGetStr_obj_some _ _ _ (jlookup_pySetList_self m "questions" (.jarr []))
  rw [generate_quiz_llm_ok req page apiKey _ shuf db _ _ _ htext hdiff hkey hgb hpg rfl]
  have hrel : (match pySet (pySet (.jobj m) "questions" (.jarr []))
        "questions" (.jarr []) with
      | JVal.jobj l => (jlookup l "related_topics").getD (.jarr [])
      | _ => JVal.jarr []) = (jlookup m "related_topics").getD (.jarr []) := by
    show (jlookup (pySetList (pySetList m "questions" (.jarr []))
        "questions" (.jarr [])) "related_topics").getD (.jarr []) = _
    rw [jlookup_pySetList_ne _ "questions" (.jarr []) "related_topics" (by decide),
        jlookup_pySetList_ne _ "questions" (.jarr []) "related_topics" (by decide)]
  rw [hrel]

/-- A reply whose only question has 3 options (it fails validation). -/
def c9raw : String :=
  "\x7b\"questions\": [\x7b\"question\": \"Q?\", \"options\": [\"A\", \"B\", \"C\"], \"answer\": \"A\"\x7d]\x7d"

/-- The decoded form of `c9raw`. -/
def c9q : JVal := .jobj [("question", .jstr "Q?"),
  ("options", .jarr [.jstr "A", .jstr "B", .jstr "C"]), ("answer", .jstr "A")]

/-- Witness for claim C9 at the concrete reply `c9raw`. -/
theorem claim_C9_witness :
    generate_quiz (fixReq 1) (.fetched fixPage) (some "key")
        (.resp 200 (some (mkEnvelope c9raw))) id [] =
      ⟨.ok (articleTitle fixPage) (.jarr [])
          ((jlookup [("questions", .jarr [c9q])] "related_topics").getD (.jarr [])),
       [] ++ [⟨nextId [], (fixReq 1).url, articleTitle fixPage,
          pySet (pySet (.jobj [("questions", .jarr [c9q])]) "questions" (.jarr []))
            "questions" (.jarr []),
          String.mk ((articleText fixPage (fixReq 1).number_of_questions).data.take 500)⟩],
       true, false⟩ :=
  claim_C9 (fixReq 1) fixPage (some "key") (mkEnvelope c9raw) c9raw
    [("questions", .jarr [c9q])] [c9q] id [] rfl rfl rfl rfl rfl rfl rfl
    (by intro q hqm; rw [List.mem_singleton] at hqm; subst hqm; rfl)
    (by intro q hqm; rw [List.mem_singleton] at hqm; subst hqm; rfl)

/-! ### Claim C8. -/

/-- A valid one-question reply with no `related_topics` key. -/
def c8raw : String :=
  "\x7b\"questions\": [\x7b\"question\": \"Q?\", \"options\": [\"A\", \"B\", \"C\", \"D\"], \"answer\": \"A\"\x7d]\x7d"

/-- The run of the endpoint on `c8raw` with a key configured. -/
def c8run : RunOut :=
  generate_quiz (fixReq 1) (.fetched fixPage) (some "key")
    (.resp 200 (some (mkEnvelope c8raw))) id []

/-- Counterexample to claim C8: for an LLM-sourced quiz whose reply has no
`related_topics`, the response's `related_topics` is the *empty list*
(`quiz_json.get("related_topics", [])`), not the claimed default
`[title, "Wikipedia", "General Knowledge"]`. -/
theorem claim_C8_cex :
    outRel c8run.out = .jarr [] ∧
    outRel c8run.out ≠
      .jarr [.jstr (articleTitle fixPage), .jstr "Wikipedia", .jstr "General Knowledge"] := by
  refine ⟨rfl, ?_⟩
  intro h
  exact absurd (congrArg (fun v => (asArr v).length) h) (by decide)

/-- Claim C8 as amended: the default `[title, "Wikipedia",
"General Knowledge"]` is attached only by the fallback generator (first
conjunct); an LLM-sourced quiz keeps whatever `related_topics` its parsed
reply carries, defaulting to the empty list when the key is absent
(second conjunct: the response value is the reply's own entry under
`.get("related_topics", [])`). -/
theorem claim_C8_amended :
    (∀ (req : QuizRequest) (page : Page) (net : NetOutcome)
       (shuf : List JVal → List JVal) (db : List QuizHistory),
       (∀ l, (shuf l).Perm l) →
       (articleText page req.number_of_questions).data.isEmpty = false →
       difficultyKeys.contains req.difficulty = true →
       articleTitle page ∉ ["An unrelated topic", "A different subject", "Another area of study"] →
       outRel (generate_quiz req (.fetched page) none net shuf db).out =
         .jarr [.jstr (articleTitle page), .jstr "Wikipedia", .jstr "General Knowledge"]) ∧
    (∀ (req : QuizRequest) (page : Page) (apiKey : Option String) (net : NetOutcome)
       (shuf : List JVal → List JVal) (db : List QuizHistory)
       (m : List (String × JVal)) (qsv shuffled : JVal),
       (articleText page req.number_of_questions).data.isEmpty = false →
       difficultyKeys.contains req.difficulty = true →
       keyTruthy apiKey = true →
       gemini_block net req.number_of_questions = some (.jobj m) →
       pyGetStr (.jobj m) "questions" = .ok qsv →
       shuffleTop shuf qsv = .ok shuffled →
       outRel (generate_quiz req (.fetched page) apiKey net shuf db).out =
         (jlookup m "related_topics").getD (.jarr [])) := by
  constructor
  · intro req page net shuf db hperm htext hdiff htitle
    obtain ⟨qs', hsh, _, _⟩ := shuffle_options_ok_of shuf (fun _ => True)
      (fallback_questions (articleTitle page) req.difficulty
        (articleText page req.number_of_questions).data req.number_of_questions)
      (fun q hqm => by
        obtain ⟨i, _, rfl⟩ := List.mem_map.mp hqm
        obtain ⟨q', hq', _, _⟩ := shuffle_one_fallback shuf hperm (articleTitle page)
          req.difficulty (fbSentences (articleText page req.number_of_questions).data
            req.number_of_questions) i
          (fbSentences_long _ _) htitle
        exact ⟨q', hq', trivial⟩)
    rw [generate_quiz_fallback_eq req page net shuf db qs' htext hdiff hsh]
    rfl
  · intro req page apiKey net shuf db m qsv shuffled htext hdiff hkey hgb hq hsh
    rw [generate_quiz_llm_ok req page apiKey net shuf db _ _ _ htext hdiff hkey hgb hq hsh]
    show (match pySet (.jobj m) "questions" shuffled with
      | JVal.jobj l => (jlookup l "related_topics").getD (.jarr [])
      | _ => JVal.jarr []) = _
    show (jlookup (pySetList m "questions" shuffled) "related_topics").getD (.jarr []) = _
    rw [jlookup_pySetList_ne _ "questions" shuffled "related_topics" (by decide)]

/-- Witness for claim C8 as amended: a keyless fallback run carries the
default triple; the concrete LLM run on `c8raw` (no `related_topics` in
the reply) carries the reply's own — absent — entry, `[]`. -/
theorem claim_C8_witness :
    outRel (generate_quiz (fixReq 1) (.fetched fixPage) none .transErr id []).out =
      .jarr [.jstr (articleTitle fixPage), .jstr "Wikipedia", .jstr "General Knowledge"] ∧
    outRel c8run.out =
      (jlookup [("questions", .jarr [.jobj [("question", .jstr "Q?"),
        ("options", .jarr [.jstr "A", .jstr "B", .jstr "C", .jstr "D"]),
        ("answer", .jstr "A")]])] "related_topics").getD (.jarr []) :=
  ⟨claim_C8_amended.1 (fixReq 1) fixPage .transErr id [] (fun l => List.Perm.refl l)
     rfl rfl (by decide),
   claim_C8_amended.2 (fixReq 1) fixPage (some "key")
     (.resp 200 (some (mkEnvelope c8raw))) id []
     [("questions", .jarr [.jobj [("question", .jstr "Q?"),
        ("options", .jarr [.jstr "A", .jstr "B", .jstr "C", .jstr "D"]),
        ("answer", .jstr "A")]])]
     (.jarr [.jobj [("question", .jstr "Q?"),
        ("options", .jarr [.jstr "A", .jstr "B", .jstr "C", .jstr "D"]),
        ("answer", .jstr "A")]])
     (.jarr [.jobj [("question", .jstr "Q?"),
        ("options", .jarr [.jobj [("text", .jstr "A"), ("is_correct", .jbool true)],
           .jobj [("text", .jstr "B"), ("is_correct", .jbool false)],
           .jobj [("text", .jstr "C"), ("is_correct", .jbool false)],
           .jobj [("text", .jstr "D"), ("is_correct", .jbool false)]])]])
     rfl rfl rfl rfl rfl rfl⟩

/-! ### Claim C1. -/

/-- A valid-by-validation reply question whose `answer` ("E") matches no
option text. -/
def c1raw : String :=
  "\x7b\"questions\": [\x7b\"question\": \"Q?\", \"options\": [\"A\", \"B\", \"C\", \"D\"], \"answer\": \"E\"\x7d]\x7d"

/-- The run of the endpoint on `c1raw` with a key configured. -/
def c1run : RunOut :=
  generate_quiz (fixReq 1) (.fetched fixPage) (some "key")
    (.resp 200 (some (mkEnvelope c1raw))) id []

/-- Counterexample to claim C1: a quiz returned by `POST /quiz` (LLM
origin, answer matching no option) whose single question has 4 options but
*zero* options with `is_correct = true` — "exactly one correct" fails. -/
theorem claim_C1_cex :
    (outQs c1run.out).length = 1 ∧
    (qOptions ((outQs c1run.out).getD 0 .jnull)).length = 4 ∧
    countCorrect ((outQs c1run.out).getD 0 .jnull) = 0 :=
  ⟨rfl, rfl, rfl⟩

/-- Claim C1 as amended: every returned question has exactly 4 options.
For fallback-origin quizzes (article title distinct from the three generic
distractors) every question also has exactly one option with
`is_correct = true` (first conjunct, over the whole endpoint).  For
LLM-origin questions, the conversion marks `is_correct` by comparing each
option text with the `answer` string, so the number of correct options
equals the number of option texts equal to the answer — which is zero when
the answer matches no option (second conjunct, over the conversion of any
4-string-option question). -/
theorem claim_C1_amended :
    (∀ (req : QuizRequest) (page : Page) (net : NetOutcome)
       (shuf : List JVal → List JVal) (db : List QuizHistory),
       (∀ l, (shuf l).Perm l) →
       (articleText page req.number_of_questions).data.isEmpty = false →
       difficultyKeys.contains req.difficulty = true →
       articleTitle page ∉ ["An unrelated topic", "A different subject", "Another area of study"] →
       ∀ q' ∈ outQs (generate_quiz req (.fetched page) none net shuf db).out,
         (qOptions q').length = 4 ∧ countCorrect q' = 1) ∧
    (∀ (shuf : List JVal → List JVal), (∀ l, (shuf l).Perm l) →
       ∀ (qtext a diff expl : String) (texts : List String), texts.length = 4 →
       ∃ q', shuffle_one shuf (.jobj [("question", .jstr qtext),
           ("options", .jarr (texts.map JVal.jstr)),
           ("answer", .jstr a), ("difficulty", .jstr diff),
           ("explanation", .jstr expl)]) = .ok q' ∧
         (qOptions q').length = 4 ∧
         countCorrect q' = texts.countP (fun t => t == a)) := by
  constructor
  · intro req page net shuf db hperm htext hdiff htitle
    obtain ⟨qs', hsh, _, hall⟩ := shuffle_options_ok_of shuf
      (fun q' => (qOptions q').length = 4 ∧ countCorrect q' = 1)
      (fallback_questions (articleTitle page) req.difficulty
        (articleText page req.number_of_questions).data req.number_of_questions)
      (fun q hqm => by
        obtain ⟨i, _, rfl⟩ := List.mem_map.mp hqm
        exact shuffle_one_fallback shuf hperm (articleTitle page) req.difficulty
          (fbSentences (articleText page req.number_of_questions).data
            req.number_of_questions) i (fbSentences_long _ _) htitle)
    rw [generate_quiz_fallback_eq req page net shuf db qs' htext hdiff hsh]
    exact hall
  · intro shuf hperm qtext a diff expl texts hlen
    cases texts with
    | nil => cases hlen
    | cons t0 ts =>
      have ho : jlookup [("question", JVal.jstr qtext),
          ("options", JVal.jarr ((t0 :: ts).map JVal.jstr)),
          ("answer", JVal.jstr a), ("difficulty", JVal.jstr diff),
          ("explanation", JVal.jstr expl)] "options" =
          some (.jarr (.jstr t0 :: ts.map JVal.jstr)) := rfl
      have ha : jlookup [("question", JVal.jstr qtext),
          ("options", JVal.jarr ((t0 :: ts).map JVal.jstr)),
          ("answer", JVal.jstr a), ("difficulty", JVal.jstr diff),
          ("explanation", JVal.jstr expl)] "answer" = some (.jstr a) := rfl
      have h1 := shuffle_one_to_conv shuf _ (.jstr t0) (ts.map .jstr) ho
        (by intro mo h; cases h) (strs_no_jobj t0 ts)
      have h2 := shuffle_conv_arr shuf _ (.jstr t0 :: ts.map .jstr) (.jstr a) ha ho
      refine ⟨_, h1.trans h2, ?_, ?_⟩
      · rw [qOptions_conv, List.length_map, (hperm _).length_eq]
        show ((t0 :: ts).map JVal.jstr).length = 4
        rw [List.length_map]
        exact hlen
      · rw [countCorrect_conv, List.Perm.countP_eq _ (hperm _)]
        show ((t0 :: ts).map JVal.jstr).countP (fun o => pyEq o (.jstr a)) = _
        rw [List.countP_map]
        rfl

/-- Witness for claim C1 as amended, at the identity shuffle: the keyless
run on `fixPage` yields questions with 4 options and exactly one correct,
and the conversion of a 4-option question whose answer matches no option
yields zero correct options. -/
theorem claim_C1_witness :
    ((qOptions ((outQs (generate_quiz (fixReq 1) (.fetched fixPage) none .transErr
        id []).out).getD 0 .jnull)).length = 4 ∧
     countCorrect ((outQs (generate_quiz (fixReq 1) (.fetched fixPage) none .transErr
        id []).out).getD 0 .jnull) = 1) ∧
    (∃ q', shuffle_one id (.jobj [("question", .jstr "Q?"),
        ("options", .jarr (["A", "B", "C", "D"].map JVal.jstr)),
        ("answer", .jstr "E"), ("difficulty", .jstr "easy"),
        ("explanation", .jstr "E.")]) = .ok q' ∧
      (qOptions q').length = 4 ∧
      countCorrect q' = ["A", "B", "C", "D"].countP (fun t => t == "E")) :=
  ⟨claim_C1_amended.1 (fixReq 1) fixPage .transErr id [] (fun l => List.Perm.refl l)
     rfl rfl (by decide) _
     (List.get?_mem (show (outQs (generate_quiz (fixReq 1) (.fetched fixPage) none
        .transErr id []).out).get? 0 = some ((outQs (generate_quiz (fixReq 1)
        (.fetched fixPage) none .transErr id []).out).getD 0 .jnull) from rfl)),
   claim_C1_amended.2 id (fun l => List.Perm.refl l) "Q?" "E" "easy" "E."
     ["A", "B", "C", "D"] rfl⟩

/-! ### Claim C3. -/

/-- First scenario sentence (stripped length 81 > 60, < 120). -/
def c3s1 : String :=
  "The first sentence of the article is deliberately written to be quite long indeed"

/-- Second scenario sentence. -/
def c3s2 : String :=
  "The second sentence of the article is also written to be quite long indeed"

/-- Third scenario sentence. -/
def c3s3 : String :=
  "The third sentence of the article is likewise written to be quite long indeed"

/-- The scenario page: title `T`, one paragraph of exactly the three long
sentences. -/
def c3page : Page :=
  ⟨some "T", [c3s1 ++ ". " ++ c3s2 ++ ". " ++ c3s3 ++ "."]⟩

/-- The scenario run: 5 questions requested, no credential configured. -/
def c3run : RunOut :=
  generate_quiz (fixReq 5) (.fetched c3page) none .transErr id []

/-- Claim C3: the fallback generator always emits exactly `questionCount`
questions (first conjunct); slot `i` uses the `i`-th qualifying sentence,
truncated by `truncSentence` (`[:120]` plus an ellipsis when longer), as
its `answer` while sentences remain (second conjunct); once the sentences
run out, every remaining slot is the generic
"What is this Wikipedia article primarily about?" question whose answer is
the article title (third conjunct).  Fourth conjunct — the spec scenario:
a body of 3 qualifying sentences, `questionCount = 5`, missing credential:
no generation call, fallback runs, the response has exactly 5 questions,
the last 2 are the generic question with the title as the single correct
option, and slot 0's single correct option is the first sentence. -/
theorem claim_C3 :
    (∀ (title diff : String) (text : List Char) (n : Nat),
       (fallback_questions title diff text n).length = n) ∧
    (∀ (title diff : String) (text : List Char) (n i : Nat) (s : List Char),
       i < n → (fbSentences text n).get? i = some s →
       jget ((fallback_questions title diff text n).getD i .jnull) "answer" =
         .jstr (truncSentence s)) ∧
    (∀ (title diff : String) (text : List Char) (n i : Nat),
       i < n → (fbSentences text n).get? i = none →
       (fallback_questions title diff text n).getD i .jnull =
         .jobj [("question", .jstr "What is this Wikipedia article primarily about?"),
           ("options", .jarr [.jstr title, .jstr "An unrelated topic",
             .jstr "A different subject", .jstr "Another area of study"]),
           ("answer", .jstr title), ("difficulty", .jstr diff),
           ("explanation", .jstr ("The article focuses on " ++ title ++ "."))]) ∧
    ((outQs c3run.out).length = 5 ∧ c3run.attempted = false ∧ c3run.fellBack = true ∧
     jget ((outQs c3run.out).getD 3 .jnull) "question" =
       .jstr "What is this Wikipedia article primarily about?" ∧
     jget ((outQs c3run.out).getD 4 .jnull) "question" =
       .jstr "What is this Wikipedia article primarily about?" ∧
     correctTexts ((outQs c3run.out).getD 3 .jnull) = [.jstr "T"] ∧
     correctTexts ((outQs c3run.out).getD 4 .jnull) = [.jstr "T"] ∧
     correctTexts ((outQs c3run.out).getD 0 .jnull) = [.jstr c3s1]) := by
  refine ⟨?_, ?_, ?_, rfl, rfl, rfl, rfl, rfl, rfl, rfl, rfl⟩
  · intro title diff text n
    unfold fallback_questions
    rw [List.length_map, List.length_range]
  · intro title diff text n i s hi hs
    have he : (fallback_questions title diff text n).getD i .jnull =
        fallback_q title diff (fbSentences text n) i := by
      unfold fallback_questions
      rw [List.getD_eq_getElem?_getD, List.getElem?_map, List.getElem?_range hi]
      rfl
    rw [he]
    unfold fallback_q
    rw [hs]
    rfl
  · intro title diff text n i hi hs
    have he : (fallback_questions title diff text n).getD i .jnull =
        fallback_q title diff (fbSentences text n) i := by
      unfold fallback_questions
      rw [List.getD_eq_getElem?_getD, List.getElem?_map, List.getElem?_range hi]
      rfl
    rw [he]
    unfold fallback_q
    rw [hs]

/-- Witness for claim C3: the general conjuncts applied to the scenario
data — slot 1 of the scenario fallback uses the (stripped) second
sentence, and slot 3 is the generic question. -/
theorem claim_C3_witness :
    jget ((fallback_questions "T" "easy"
        (articleText c3page 5).data 5).getD 1 .jnull) "answer" =
      .jstr (truncSentence (pyStrip (" " ++ c3s2).data)) ∧
    (fallback_questions "T" "easy" (articleText c3page 5).data 5).getD 3 .jnull =
      .jobj [("question", .jstr "What is this Wikipedia article primarily about?"),
        ("options", .jarr [.jstr "T", .jstr "An unrelated topic",
          .jstr "A different subject", .jstr "Another area of study"]),
        ("answer", .jstr "T"), ("difficulty", .jstr "easy"),
        ("explanation", .jstr ("The article focuses on " ++ "T" ++ "."))] :=
  ⟨claim_C3.2.1 "T" "easy" (articleText c3page 5).data 5 1 (pyStrip (" " ++ c3s2).data)
     (by omega) rfl,
   claim_C3.2.2.1 "T" "easy" (articleText c3page 5).data 5 3 (by omega) rfl⟩

/-! ### Claim C7. -/

/-- The multiset of `(text, is_correct)` pairs of a question's options. -/
def optPairs (q : JVal) : Multiset (JVal × JVal) :=
  ((qOptions q).map (fun o => (jget o "text", jget o "is_correct")) : List (JVal × JVal))

theorem qOptions_obj (m : List (String × JVal)) (opts : List JVal)
    (ho : jlookup m "options" = some (.jarr opts)) :
    qOptions (.jobj m) = opts := by
  show asArr ((jlookup m "options").getD .jnull) = opts
  rw [ho]
  rfl

theorem canon_to_text (opts : List JVal)
    (hcanon : ∀ o ∈ opts, ∃ mo, o = .jobj mo ∧
       (jlookup mo "text").isSome = true ∧ (jlookup mo "is_correct").isSome = true) :
    ∀ o ∈ opts, ∀ mo, o = .jobj mo → (jlookup mo "text").isSome = true := by
  intro o hom mo he
  obtain ⟨mo2, he2, ht, _⟩ := hcanon o hom
  rw [he] at he2
  injection he2 with h3
  rw [h3]
  exact ht

/-- Claim C7: on a question already in canonical option form (a list of
option dicts carrying `text` and `is_correct`, the first entry a dict),
`shuffle_options`'s per-question body only permutes the options: the
multiset of `(text, is_correct)` pairs is invariant, so the number of
options with a truthy `is_correct` is unchanged — and applying the shuffle
a second time preserves both again. -/
theorem claim_C7 (shuf : List JVal → List JVal) (hperm : ∀ l, (shuf l).Perm l)
    (m m0 : List (String × JVal)) (rest : List JVal)
    (ho : jlookup m "options" = some (.jarr (.jobj m0 :: rest)))
    (hlen : (JVal.jobj m0 :: rest).length = 4)
    (hcanon : ∀ o ∈ (JVal.jobj m0) :: rest, ∃ mo, o = .jobj mo ∧
       (jlookup mo "text").isSome = true ∧ (jlookup mo "is_correct").isSome = true) :
    ∃ q', shuffle_one shuf (.jobj m) = .ok q' ∧
      (qOptions q').length = 4 ∧
      optPairs q' = optPairs (.jobj m) ∧
      countCorrect q' = countCorrect (.jobj m) ∧
      ∃ q'', shuffle_one shuf q' = .ok q'' ∧
        optPairs q'' = optPairs (.jobj m) ∧
        countCorrect q'' = countCorrect (.jobj m) := by
  have hq0 := qOptions_obj m _ ho
  have hperm1 : (shuf (.jobj m0 :: rest)).Perm (.jobj m0 :: rest) := hperm _
  refine ⟨_, shuffle_one_canonical shuf m m0 rest ho (canon_to_text _ hcanon), ?_, ?_, ?_, ?_⟩
  · rw [qOptions_set, hperm1.length_eq, hlen]
  · unfold optPairs
    rw [qOptions_set, hq0]
    exact Multiset.coe_eq_coe.mpr (hperm1.map _)
  · unfold countCorrect
    rw [qOptions_set, hq0]
    exact hperm1.countP_eq _
  · -- second application
    have ho2 : jlookup (pySetList m "options" (.jarr (shuf (.jobj m0 :: rest))))
        "options" = some (.jarr (shuf (.jobj m0 :: rest))) :=
      jlookup_pySetList_self m "options" _
    have hcanon2 : ∀ o ∈ shuf (.jobj m0 :: rest), ∃ mo, o = .jobj mo ∧
        (jlookup mo "text").isSome = true ∧ (jlookup mo "is_correct").isSome = true :=
      fun o hom => hcanon o (hperm1.mem_iff.mp hom)
    cases hsh : shuf (.jobj m0 :: rest) with
    | nil =>
        have hl2 : (JVal.jobj m0 :: rest).length = 0 := by
          rw [← hperm1.length_eq, hsh]
          rfl
        rw [hlen] at hl2
        cases hl2
    | cons o1 rest1 =>
        have ho1m : o1 ∈ shuf (.jobj m0 :: rest) := by rw [hsh]; simp
        obtain ⟨m1, he1, _, _⟩ := hcanon2 o1 ho1m
        subst he1
        rw [hsh] at ho2
        have hperm2 : (shuf (.jobj m1 :: rest1)).Perm (.jobj m1 :: rest1) := hperm _
        have hpermA : (shuf (.jobj m1 :: rest1)).Perm (.jobj m0 :: rest) :=
          hperm2.trans (hsh ▸ hperm1)
        refine ⟨_, shuffle_one_canonical shuf _ m1 rest1 ho2 (canon_to_text _ (by
            rw [← hsh]
            exact hcanon2)), ?_, ?_⟩
        · unfold optPairs
          rw [qOptions_set, hq0]
          exact Multiset.coe_eq_coe.mpr (hpermA.map _)
        · unfold countCorrect
          rw [qOptions_set, hq0]
          exact hpermA.countP_eq _

/-- Witness for claim C7: a concrete canonical question under the reversal
permutation. -/
theorem claim_C7_witness :
    ∃ q', shuffle_one List.reverse (.jobj [("question", .jstr "Q?"),
        ("options", .jarr [.jobj [("text", .jstr "A"), ("is_correct", .jbool true)],
          .jobj [("text", .jstr "B"), ("is_correct", .jbool false)],
          .jobj [("text", .jstr "C"), ("is_correct", .jbool false)],
          .jobj [("text", .jstr "D"), ("is_correct", .jbool false)]])]) = .ok q' ∧
      (qOptions q').length = 4 ∧
      optPairs q' = optPairs (.jobj [("question", .jstr "Q?"),
        ("options", .jarr [.jobj [("text", .jstr "A"), ("is_correct", .jbool true)],
          .jobj [("text", .jstr "B"), ("is_correct", .jbool false)],
          .jobj [("text", .jstr "C"), ("is_correct", .jbool false)],
          .jobj [("text", .jstr "D"), ("is_correct", .jbool false)]])]) ∧
      countCorrect q' = countCorrect (.jobj [("question", .jstr "Q?"),
        ("options", .jarr [.jobj [("text", .jstr "A"), ("is_correct", .jbool true)],
          .jobj [("text", .jstr "B"), ("is_correct", .jbool false)],
          .jobj [("text", .jstr "C"), ("is_correct", .jbool false)],
          .jobj [("text", .jstr "D"), ("is_correct", .jbool false)]])]) ∧
      ∃ q'', shuffle_one List.reverse q' = .ok q'' ∧
        optPairs q'' = optPairs (.jobj [("question", .jstr "Q?"),
          ("options", .jarr [.jobj [("text", .jstr "A"), ("is_correct", .jbool true)],
            .jobj [("text", .jstr "B"), ("is_correct", .jbool false)],
            .jobj [("text", .jstr "C"), ("is_correct", .jbool false)],
            .jobj [("text", .jstr "D"), ("is_correct", .jbool false)]])]) ∧
        countCorrect q'' = countCorrect (.jobj [("question", .jstr "Q?"),
          ("options", .jarr [.jobj [("text", .jstr "A"), ("is_correct", .jbool true)],
            .jobj [("text", .jstr "B"), ("is_correct", .jbool false)],
            .jobj [("text", .jstr "C"), ("is_correct", .jbool false)],
            .jobj [("text", .jstr "D"), ("is_correct", .jbool false)]])]) :=
  claim_C7 List.reverse (fun l => List.reverse_perm l) _
    [("text", .jstr "A"), ("is_correct", .jbool true)]
    [.jobj [("text", .jstr "B"), ("is_correct", .jbool false)],
     .jobj [("text", .jstr "C"), ("is_correct", .jbool false)],
     .jobj [("text", .jstr "D"), ("is_correct", .jbool false)]]
    rfl rfl
    (by
      intro o hom
      rcases List.mem_cons.mp hom with rfl | h2
      · exact ⟨_, rfl, rfl, rfl⟩
      · rcases List.mem_cons.mp h2 with rfl | h3
        · exact ⟨_, rfl, rfl, rfl⟩
        · rcases List.mem_cons.mp h3 with rfl | h4
          · exact ⟨_, rfl, rfl, rfl⟩
          · rcases List.mem_cons.mp h4 with rfl | h5
            · exact ⟨_, rfl, rfl, rfl⟩
            · cases h5)

/-! ### Claim C5. -/

/-- The five scenario questions of the fenced reply. -/

def c5q1 : JVal := .jobj [("question", .jstr "Q1?"),
  ("options", .jarr [.jstr "A1", .jstr "B1", .jstr "C1", .jstr "D1"]),
  ("answer", .jstr "A1"), ("difficulty", .jstr "easy"), ("explanation", .jstr "E1.")]

def c5q2 : JVal := .jobj [("question", .jstr "Q2?"),
  ("options", .jarr [.jstr "A2", .jstr "B2", .jstr "C2", .jstr "D2"]),
  ("answer", .jstr "A2"), ("difficulty", .jstr "easy"), ("explanation", .jstr "E2.")]

def c5q3 : JVal := .jobj [("question", .jstr "Q3?"),
  ("options", .jarr [.jstr "A3", .jstr "B3", .jstr "C3", .jstr "D3"]),
  ("answer", .jstr "A3"), ("difficulty", .jstr "easy"), ("explanation", .jstr "E3.")]

def c5q4 : JVal := .jobj [("question", .jstr "Q4?"),
  ("options", .jarr [.jstr "A4", .jstr "B4", .jstr "C4", .jstr "D4"]),
  ("answer", .jstr "A4"), ("difficulty", .jstr "easy"), ("explanation", .jstr "E4.")]

def c5q5 : JVal := .jobj [("question", .jstr "Q5?"),
  ("options", .jarr [.jstr "A5", .jstr "B5", .jstr "C5", .jstr "D5"]),
  ("answer", .jstr "A5"), ("difficulty", .jstr "easy"), ("explanation", .jstr "E5.")]


/-- The parsed scenario quiz object. -/
def c5quiz : JVal := .jobj [("questions", .jarr [c5q1, c5q2, c5q3, c5q4, c5q5]),
  ("related_topics", .jarr [.jstr "T1", .jstr "T2"])]

/-- The scenario reply: the quiz JSON wrapped in a ```json code fence. -/
def c5raw : String :=
  "```json\n" ++ "\x7b\"questions\": [\x7b\"question\": \"Q1?\", \"options\": [\"A1\", \"B1\", \"C1\", \"D1\"], \"answer\": \"A1\", \"difficulty\": \"easy\", \"explanation\": \"E1.\"\x7d, \x7b\"question\": \"Q2?\", \"options\": [\"A2\", \"B2\", \"C2\", \"D2\"], \"answer\": \"A2\", \"difficulty\": \"easy\", \"explanation\": \"E2.\"\x7d, \x7b\"question\": \"Q3?\", \"options\": [\"A3\", \"B3\", \"C3\", \"D3\"], \"answer\": \"A3\", \"difficulty\": \"easy\", \"explanation\": \"E3.\"\x7d, \x7b\"question\": \"Q4?\", \"options\": [\"A4\", \"B4\", \"C4\", \"D4\"], \"answer\": \"A4\", \"difficulty\": \"easy\", \"explanation\": \"E4.\"\x7d, \x7b\"question\": \"Q5?\", \"options\": [\"A5\", \"B5\", \"C5\", \"D5\"], \"answer\": \"A5\", \"difficulty\": \"easy\", \"explanation\": \"E5.\"\x7d], \"related_topics\": [\"T1\", \"T2\"]\x7d" ++ "\n```"

/-- Claim C5: the response parser's strategies apply in this exact order.
First conjunct — the cleaning step strips a surrounding ```json fence
(multiline-safe; for any fenced backtick-free text with non-whitespace
ends, cleaning returns exactly the inner text).  Second conjunct — a
successful direct `json.loads` of the cleaned text is used as-is.  Third
conjunct — only when the direct parse fails is the greedy outermost-brace
substring parsed (and when that also yields nothing the result is `none`,
which triggers the fallback).  Fourth and fifth conjuncts — the spec
scenario: a valid 5-question quiz object wrapped in a ```json fence, for a
`questionCount = 5` request, passes the whole Gemini block and yields
exactly those 5 questions with their content unmodified. -/
theorem claim_C5 :
    (∀ (c1 c2 : Char) (t : List Char),
       (∀ c ∈ c1 :: t, c ≠ btk) →
       isPySpace c1 = false →
       (c1 :: t).getLast? = some c2 → isPySpace c2 = false →
       clean_text ("```json\n".data ++ ((c1 :: t) ++ "\n```".data)) = c1 :: t) ∧
    (∀ (raw : List Char) (j : JVal),
       json_loads (clean_text raw) = some j → parse_reply raw = some j) ∧
    (∀ raw : List Char,
       json_loads (clean_text raw) = none →
       parse_reply raw = (braceSub (clean_text raw)).bind json_loads) ∧
    gemini_block (.resp 200 (some (mkEnvelope c5raw))) 5 = some c5quiz ∧
    jget c5quiz "questions" = .jarr [c5q1, c5q2, c5q3, c5q4, c5q5] := by
  refine ⟨?_, ?_, ?_, rfl, rfl⟩
  · intro c1 c2 t hbtk hw1 h2 hw2
    exact clean_fenced c1 c2 t hbtk hw1 h2 hw2
  · intro raw j h
    show (match json_loads (clean_text raw) with
      | some j => some j
      | none =>
        match braceSub (clean_text raw) with
        | some sub => json_loads sub
        | none => none) = some j
    rw [h]
  · intro raw h
    show (match json_loads (clean_text raw) with
      | some j => some j
      | none =>
        match braceSub (clean_text raw) with
        | some sub => json_loads sub
        | none => none) = (braceSub (clean_text raw)).bind json_loads
    rw [h]
    cases hb : braceSub (clean_text raw) with
    | none => rfl
    | some sub => rfl

/-- Witness for claim C5: the fence-stripping conjunct at a concrete
backtick-free text, the direct-parse conjunct at `{}`, and the
brace-extraction conjunct at a reply that is not directly parseable. -/
theorem claim_C5_witness :
    clean_text ("```json\n".data ++ (('x' :: "yz".data) ++ "\n```".data)) = 'x' :: "yz".data ∧
    parse_reply "\x7b\x7d".data = some (.jobj []) ∧
    parse_reply "noise \x7b\"a\": 1\x7d".data =
      (braceSub (clean_text "noise \x7b\"a\": 1\x7d".data)).bind json_loads :=
  ⟨claim_C5.1 'x' 'z' "yz".data (by decide) (by decide) (by decide) (by decide),
   claim_C5.2.1 "\x7b\x7d".data (.jobj []) rfl,
   claim_C5.2.2.1 "noise \x7b\"a\": 1\x7d".data rfl⟩
